import Mathlib

/-!
Verification of the `conda_smithy.lint_recipe` module (src/conda_smithy/lint_recipe.py).

The module lints a parsed recipe document (a YAML mapping) together with the raw
text of the recipe file, producing a pair of ordered finding lists
(lints = blocking errors, hints = non-blocking suggestions).

The shallow embedding below models:
  * Python values that can appear in a parsed YAML document (`YVal`);
  * the Python string primitives the module uses (strip, lower, split, ...),
    with CPython semantics restricted to ASCII text;
  * the two regular expressions `sel_pat` and `jinja_pat` and the two
    "tidy form" patterns, each translated to an explicit existential over
    split positions (a Python `re` match exists iff some decomposition of the
    line fits the pattern, because the backtracking engine searches all
    decompositions);
  * every rule of `lintify`, producing structured findings (`Lint`) in the
    exact order the source appends them, plus `renderLint`, the source format
    strings;
  * `main`, with the filesystem, the external template renderer, the YAML
    parser, and the remote-lookup service abstracted as explicit inputs.

Findings are modelled as an inductive type with one constructor per `append`
site of the source, carrying the data interpolated into the message; this
makes "emits exactly one error E" claims independent of accidental string
collisions with messages supplied by external collaborators.
-/

namespace CondaSmithy

/-! ### Python string primitives -/

/-- The six characters Python `str.strip` and `\s` treat as whitespace. -/
def isPySpace (c : Char) : Bool :=
  c = ' ' || c = '\t' || c = '\n' || c = '\r' || c = Char.ofNat 11 || c = Char.ofNat 12

/-- Python `str.lstrip()`. -/
def pyLStrip (s : String) : String :=
  String.mk (s.toList.dropWhile isPySpace)

/-- Python `str.rstrip()`. -/
def pyRStrip (s : String) : String :=
  String.mk ((s.toList.reverse.dropWhile isPySpace).reverse)

/-- Python `str.strip()`. -/
def pyStrip (s : String) : String :=
  pyLStrip (pyRStrip s)

/-- Python `str.lower()` (the recipes at hand are ASCII). -/
def pyLower (s : String) : String :=
  String.mk (s.toList.map Char.toLower)

/-- Python `s.startswith(pre)`, via the character lists (kernel-reducible). -/
def pyStartsWith (s pre : String) : Bool :=
  List.isPrefixOf pre.toList s.toList

/-- Contiguous-sublist test used to model Python substring containment. -/
def listInf (needle : List Char) : List Char → Bool
  | [] => needle.isEmpty
  | c :: rest => List.isPrefixOf needle (c :: rest) || listInf needle rest

/-- Python `needle in haystack` on strings: substring containment. -/
def pyInStr (needle haystack : String) : Bool :=
  listInf needle.toList haystack.toList

/-- Splitting a character list at every newline, keeping empty parts. -/
def splitNlAux : List Char → List Char → List (List Char)
  | [], acc => [acc.reverse]
  | c :: rest, acc =>
      if c = '\n' then acc.reverse :: splitNlAux rest []
      else splitNlAux rest (c :: acc)

/-- Python `str.split('\n')`: split on every newline, keeping empty parts
(so a trailing newline yields a trailing empty string). -/
def pySplitNl (s : String) : List String :=
  (splitNlAux s.toList []).map String.mk

/-- The lines yielded by iterating over an open text file in Python: each line
keeps its trailing newline; a final fragment without a newline is kept, and a
trailing newline does not create an extra empty line. -/
def pyFileLines (c : String) : List String :=
  let ps := pySplitNl c
  let front := ps.dropLast.map (· ++ "\n")
  if ps.getLastD "" = "" then front else front ++ [ps.getLastD ""]

/-- `os.path.join(a, b)` for the relative second components used by the
module (`join('', b) = b`; otherwise insert a slash unless one is present). -/
def pyJoin (a b : String) : String :=
  if a = "" then b else if a.toList.getLastD ' ' = '/' then a ++ b else a ++ "/" ++ b

/-- `os.path.basename`: the part after the last slash. -/
def pyBasename (s : String) : String :=
  String.mk ((s.toList.reverse.takeWhile (· ≠ '/')).reverse)

/-- The leading-whitespace prefix `line[:-len(line.lstrip())]` computed by
rule 17 of the source.  Note the CPython quirk: when `line.lstrip()` is empty
(a line of only whitespace), `line[:-0]` is `line[:0] = ''`, not the whole
line. -/
def pyLeading (line : String) : String :=
  if (pyLStrip line) = "" then "" else String.mk (line.toList.takeWhile isPySpace)

/-! ### Parsed YAML values -/

/-- A Python value occurring in a document produced by the YAML round-trip
load: `None`, booleans, integers, strings, lists, and string-keyed mappings
(association lists preserving key order, as the round-trip loader does). -/
inductive YVal where
  | none
  | bool (b : Bool)
  | int (n : Int)
  | str (s : String)
  | list (xs : List YVal)
  | map (kvs : List (String × YVal))

/-- First-match association lookup: `dict.get` (Python dicts have unique
keys; well-formed documents below require it). -/
def pyLookup : List (String × YVal) → String → Option YVal
  | [], _ => Option.none
  | kv :: rest, k => if kv.1 = k then some kv.2 else pyLookup rest k

/-- `d.get(k, default)`. -/
def pyGetD (kvs : List (String × YVal)) (k : String) (d : YVal) : YVal :=
  (pyLookup kvs k).getD d

/-- Python truthiness of the modelled values. -/
def pyTruthy : YVal → Bool
  | .none => false
  | .bool b => b
  | .int n => n ≠ 0
  | .str s => s ≠ ""
  | .list xs => !xs.isEmpty
  | .map kvs => !kvs.isEmpty

/-- `x is None`. -/
def isPyNone : YVal → Bool
  | .none => true
  | _ => false

/-- `isinstance(x, Sequence) and not isinstance(x, str)`: only lists qualify
among the modelled values. -/
def isSeqNotStr : YVal → Bool
  | .list _ => true
  | _ => false

/-- `str(x)` for the scalar values the source formats into messages
(`'{}'.format(x)`).  Containers are never formatted on well-formed documents
(see `wfDoc`); a placeholder stands in for their Python repr. -/
def pyStr : YVal → String
  | .none => "None"
  | .bool true => "True"
  | .bool false => "False"
  | .int n => toString n
  | .str s => s
  | .list _ => "<list>"
  | .map _ => "<dict>"

/-- `type(x).__name__` for the modelled values (the built-in type names; the
round-trip loader uses subclasses whose names differ, which only changes the
wording inside shape messages, never which finding is emitted). -/
def pyTypeName : YVal → String
  | .none => "NoneType"
  | .bool _ => "bool"
  | .int _ => "int"
  | .str _ => "str"
  | .list _ => "list"
  | .map _ => "dict"

/-- `type(x).__module__` for the modelled values. -/
def pyTypeModule : YVal → String
  | _ => "builtins"

/-- `d.get(k, default).lower()`-style access requiring a string: returns the
string if the key maps to one, the default if the key is absent.  A present
non-string value makes CPython raise `AttributeError` (excluded by `wfDoc`);
the model returns `""` there. -/
def pyGetStrD (kvs : List (String × YVal)) (k : String) (d : String) : String :=
  match pyLookup kvs k with
  | some (.str s) => s
  | some _ => ""
  | Option.none => d

/-! ### Static tables of the module -/

def EXPECTED_SECTION_ORDER : List String :=
  ["package", "source", "build", "requirements", "test", "app", "outputs", "about", "extra"]

def REQUIREMENTS_ORDER : List String := ["build", "host", "run"]

def TEST_KEYS : List String := ["imports", "commands"]

def TEST_FILES : List String := ["run_test.py", "run_test.sh", "run_test.bat", "run_test.pl"]

/-! ### Findings

One constructor per `lints.append` / `hints.append` site of the source,
carrying the values interpolated into the format string.  `renderLint`
produces the exact message text. -/

inductive Lint where
  /-- get_section: 'The "{}" section was expected to be a dictionary, but got a {}.' -/
  | sectionExpectedDict (name tyName : String)
  /-- get_list_section: 'The "{}" section was expected to be a {}list, but got a {}.{}.' -/
  | listSectionWrongType (name : String) (allowSingle : Bool) (tyModule tyName : String)
  /-- rule 0: 'The top level meta key {} is unexpected' -/
  | unexpectedTopLevelKey (k : String)
  /-- rule 1: 'The top level meta keys are in an unexpected order. Expecting {}.' -/
  | sectionOrder (expected : List String)
  /-- rule 2: 'The {} item is expected in the about section.' -/
  | aboutItemMissing (item : String)
  /-- rule 3a: maintainers missing -/
  | noMaintainers
  /-- rule 3b: 'Recipe maintainers should be a json list.' -/
  | maintainersNotList
  /-- rule 4: 'The recipe must have some tests.' -/
  | mustHaveTests
  /-- rule 4 (hint): 'It looks like the '{}' output doesn't have any tests.' -/
  | outputMissingTests (name : String)
  /-- rule 5: 'The recipe license cannot be unknown.' -/
  | licenseUnknown
  /-- rule 6: selector tidiness, carrying the offending zero-based line numbers -/
  | badSelectors (lineNumbers : List Nat)
  /-- rule 7: 'The recipe must have a `build/number` section.' -/
  | missingBuildNumber
  /-- rule 8: requirements subsection order, carrying the keys as seen -/
  | requirementsOrder (seen : List String)
  /-- rule 9: missing checksum on a source url -/
  | missingHash
  /-- rule 10: license contains the word license -/
  | licenseHasLicense
  /-- rule 11: '{} too many lines' -/
  | trailingTooMany (n : Nat)
  /-- rule 11: 'too few lines' -/
  | trailingTooFew
  /-- rule 12: message of the external license-family validator -/
  | licenseFamilyError (msg : String)
  /-- rule 13: invalid recipe name -/
  | badRecipeName
  /-- conda-forge rule 1: 'Feedstock with the same name exists in conda-forge' -/
  | feedstockExists
  /-- conda-forge rule 1 (hint): same recipe in bioconda -/
  | biocondaExists
  /-- conda-forge rule 2: 'Recipe maintainer "{}" does not exist' -/
  | maintainerMissing (name : String)
  /-- conda-forge rule 3: recipe inside the example dir -/
  | exampleRecipeDir
  /-- rule 15: pinned numpy legacy pattern -/
  | numpyPinned
  /-- rule 16: 'The {} section contained an unexpected subsection name. ...' -/
  | unexpectedSubsection (section_ sub : String)
  /-- rule 17: noarch packages cannot have selectors -/
  | noarchSelector (noarchVal : String)
  /-- rule 19: 'Package version {} doesn't match conda spec' -/
  | badVersion (ver : String)
  /-- rule 20: Jinja2 tidiness, carrying the offending zero-based line numbers -/
  | badJinja (lineNumbers : List Nat)
  /-- rule 21: toolchain legacy pattern -/
  | toolchainDeprecated
  /-- pip hint: 'Whenever possible python packages should use pip. ...' -/
  | usePip
deriving DecidableEq

/-- Python list repr of the line-number lists interpolated by rules 6 and 20. -/
def renderNatList (ns : List Nat) : String :=
  "[" ++ String.intercalate ", " (ns.map toString) ++ "]"

/-- Python list repr of the quoted string lists interpolated by rule 1. -/
def renderStrListQuoted (ss : List String) : String :=
  "[" ++ String.intercalate ", " (ss.map (fun s => "\x27" ++ s ++ "\x27")) ++ "]"

/-- The exact message text of each finding, from the source format strings. -/
def renderLint : Lint → String
  | .sectionExpectedDict name ty =>
      "The \"" ++ name ++ "\" section was expected to be a dictionary, but got a " ++ ty ++ "."
  | .listSectionWrongType name allowSingle tyMod ty =>
      "The \"" ++ name ++ "\" section was expected to be a " ++
      (if allowSingle then "dictionary or a " else "") ++ "list, but got a " ++
      tyMod ++ "." ++ ty ++ "."
  | .unexpectedTopLevelKey k => "The top level meta key " ++ k ++ " is unexpected"
  | .sectionOrder expected =>
      "The top level meta keys are in an unexpected order. Expecting " ++
      renderStrListQuoted expected ++ "."
  | .aboutItemMissing item => "The " ++ item ++ " item is expected in the about section."
  | .noMaintainers =>
      "The recipe could do with some maintainers listed in the `extra/recipe-maintainers` section."
  | .maintainersNotList => "Recipe maintainers should be a json list."
  | .mustHaveTests => "The recipe must have some tests."
  | .outputMissingTests name =>
      "It looks like the \x27" ++ name ++ "\x27 output doesn\x27t have any tests."
  | .licenseUnknown => "The recipe license cannot be unknown."
  | .badSelectors lineNumbers =>
      "Selectors are suggested to take a ``<two spaces>#<one space>[<expression>]`` form." ++
      " See lines " ++ renderNatList lineNumbers
  | .missingBuildNumber => "The recipe must have a `build/number` section."
  | .requirementsOrder seen =>
      "The `requirements/` sections should be defined in the following order: " ++
      String.intercalate ", " REQUIREMENTS_ORDER ++ "; instead saw: " ++
      String.intercalate ", " seen ++ "."
  | .missingHash =>
      "When defining a source/url please add a sha256, sha1 or md5 checksum (sha256 preferably)."
  | .licenseHasLicense => "The recipe `license` should not include the word \"License\"."
  | .trailingTooMany n =>
      "There are " ++ toString n ++ " too many lines.  " ++
      "There should be one empty line at the end of the file."
  | .trailingTooFew =>
      "There are too few lines.  There should be one empty line at the end of the file."
  | .licenseFamilyError msg => msg
  | .badRecipeName =>
      "Recipe name has invalid characters. only lowercase alpha, numeric, " ++
      "underscores, hyphens and dots allowed"
  | .feedstockExists => "Feedstock with the same name exists in conda-forge"
  | .biocondaExists =>
      "Recipe with the same name exists in bioconda: " ++
      "please discuss with @conda-forge/bioconda-recipes."
  | .maintainerMissing name => "Recipe maintainer \"" ++ name ++ "\" does not exist"
  | .exampleRecipeDir =>
      "Please move the recipe out of the example dir and into its own dir."
  | .numpyPinned =>
      "Using pinned numpy packages is a deprecated pattern.  Consider " ++
      "using the method outlined " ++
      "[here](https://conda-forge.org/docs/meta.html#building-against-numpy)."
  | .unexpectedSubsection section_ sub =>
      "The " ++ section_ ++ " section contained an unexpected subsection name. " ++
      sub ++ " is not a valid subsection name."
  | .noarchSelector noarchVal =>
      "`noarch` packages can\x27t have selectors. If the selectors are necessary, " ++
      "please remove `noarch: " ++ noarchVal ++ "`."
  | .badVersion ver => "Package version " ++ ver ++ " doesn\x27t match conda spec"
  | .badJinja lineNumbers =>
      "Jinja2 variable definitions are suggested to take a ``\x7b%<one space>set<one space>" ++
      "<variable name><one space>=<one space><expression><one space>%\x7d`` form. See lines " ++
      renderNatList lineNumbers
  | .toolchainDeprecated =>
      "Using toolchain directly in this manner is deprecated.  Consider " ++
      "using the compilers outlined " ++
      "[here](https://conda-forge.org/docs/meta.html#compilers)."
  | .usePip =>
      "Whenever possible python packages should use pip. " ++
      "See https://conda-forge.org/docs/meta.html#use-pip"

/-! ### The selector pattern `sel_pat`

`sel_pat = re.compile(r'(.+?)\s*(#.*)?\[([^\[\]]+)\](?(2).*)$')`, applied with
`re.match` to a right-stripped line (so the line holds no newline and `$` is
the true end).  A match exists iff the line decomposes as
`a ++ w ++ c ++ "[" ++ b ++ "]" ++ t` with `a` nonempty, `w` whitespace-only,
`b` nonempty and bracket-free, and either `c = "" ∧ t = ""` (group 2 absent:
the `]` must sit at the very end) or `c` starts with `#` (group 2 present:
anything may follow).  Since `a` absorbs arbitrary characters (including
whitespace and `#`), this reduces to the two positional cases below. -/

def charAt (cs : List Char) (i : Nat) : Char := cs.getD i ' '

/-- No `[` or `]` in the given characters. -/
def noBrackets (cs : List Char) : Bool := cs.all (fun c => !(c = '[' || c = ']'))

/-- Group 2 absent: the line ends in `]`, and some `[` at position `i ≥ 1`
(something precedes it) opens a nonempty bracket-free interior reaching the
final `]`. -/
def selPatNoComment (cs : List Char) : Bool :=
  let n := cs.length
  decide (1 ≤ n) && (charAt cs (n - 1) = ']') &&
  (List.range n).any (fun i =>
    decide (1 ≤ i) && (charAt cs i = '[') && decide (i + 2 ≤ n - 1) &&
    noBrackets ((cs.drop (i + 1)).take (n - 1 - (i + 1))))

/-- Group 2 present: a `#` at position `h ≥ 1`, followed later by `[` at `i`
and `]` at `j ≥ i + 2` with a bracket-free interior; anything may follow. -/
def selPatComment (cs : List Char) : Bool :=
  let n := cs.length
  (List.range n).any (fun h =>
    decide (1 ≤ h) && (charAt cs h = '#') &&
    (List.range n).any (fun i =>
      decide (h < i) && (charAt cs i = '[') &&
      (List.range n).any (fun j =>
        decide (i + 2 ≤ j) && (charAt cs j = ']') &&
        noBrackets ((cs.drop (i + 1)).take (j - (i + 1))))))

/-- `sel_pat.match(line)` is not `None` (for a line without newlines). -/
def selPatMatches (cs : List Char) : Bool :=
  selPatNoComment cs || selPatComment cs

/-- `is_selector_line` from the source: right-strip, dismiss comment-only
lines, then match `sel_pat`. -/
def isSelectorLine (line : String) : Bool :=
  let l := pyRStrip line
  if pyStartsWith (pyLStrip l) "#" then false
  else selPatMatches l.toList

/-! ### The tidy selector pattern

`good_selectors_pat = re.compile(r'(.+?)\s{2,}#\s\[(.+)\](?(2).*)$')`, applied
with `re.match` to the raw line (which may end in one newline; `.` never
matches a newline and `$` also matches just before a final newline, so
matching the raw line is matching the line with its final newline removed).
Group 2 `(.+)` always participates on success, so `(?(2).*)` is `.*`: a match
exists iff some `#` at position `p ≥ 3` is preceded by two whitespace
characters (and at least one more character before those), followed by one
whitespace, `[`, at least one character, and a later `]`. -/

def goodSelMatches (cs : List Char) : Bool :=
  let n := cs.length
  (List.range n).any (fun p =>
    decide (3 ≤ p) && (charAt cs p = '#') &&
    isPySpace (charAt cs (p - 1)) && isPySpace (charAt cs (p - 2)) &&
    isPySpace (charAt cs (p + 1)) && (charAt cs (p + 2) = '[') &&
    (List.range n).any (fun j =>
      decide (p + 4 ≤ j) && (charAt cs j = ']')))

/-- Remove a single trailing newline, as `$` and `.` treat it. -/
def stripOneNl (s : String) : String :=
  if s.toList.getLast? = some '\n' then String.mk s.toList.dropLast else s

/-- `good_selectors_pat.match(selector_line)` is not `None`. -/
def goodSelectorLine (line : String) : Bool :=
  goodSelMatches (stripOneNl line).toList

/-! ### The Jinja patterns

`jinja_pat = re.compile(r'\s*\{%\s*(set)\s+[^\s]+\s*=\s*[^\s]+\s*%\}')` and
`good_jinja_pat = re.compile(r'\s*\{%\s(set)\s[^\s]+\s=\s[^\s]+\s%\}')`, both
prefix matches (`re.match`, no `$`).  The leading pieces up to `set` and its
following whitespace admit a single decomposition (each `\s*`/`\s+` is
followed by a non-whitespace literal), so they are parsed deterministically;
the tail needs an existential because `[^\s]+` may itself contain `=` or `%`. -/

def lbrace : Char := Char.ofNat 123

def rbrace : Char := Char.ofNat 125

/-- Trailing-whitespace-stripped character list. -/
def dropTrailingWs (cs : List Char) : List Char :=
  (cs.reverse.dropWhile isPySpace).reverse

/-- The tail of `jinja_pat` after `set\s+`: some decomposition
`t1 ++ w1 ++ "=" ++ w2 ++ t2 ++ w3 ++ "%}" ++ rest` with `t1`, `t2` nonempty
and whitespace-free, `w1 w2 w3` whitespace-only. -/
def jinjaAfterSet (r : List Char) : Bool :=
  (List.range r.length).any (fun e =>
    (charAt r e = '=') &&
    (let t1 := dropTrailingWs (r.take e)
     decide (1 ≤ t1.length) && t1.all (fun c => !isPySpace c)) &&
    (let r2 := (r.drop (e + 1)).dropWhile isPySpace
     (List.range (r2.length + 1)).any (fun k =>
       decide (1 ≤ k) && decide (k ≤ r2.length) &&
       (r2.take k).all (fun c => !isPySpace c) &&
       List.isPrefixOf ['%', rbrace] ((r2.drop k).dropWhile isPySpace))))

/-- `jinja_pat.match(line)` is not `None` (line without newlines). -/
def jinjaPatMatches (cs : List Char) : Bool :=
  let c1 := cs.dropWhile isPySpace
  List.isPrefixOf [lbrace, '%'] c1 &&
  (let c2 := (c1.drop 2).dropWhile isPySpace
   List.isPrefixOf ['s', 'e', 't'] c2 &&
   (let c3 := c2.drop 3
    match c3 with
    | [] => false
    | c :: _ => isPySpace c && jinjaAfterSet (c3.dropWhile isPySpace)))

/-- `is_jinja_line` from the source: right-strip, then match `jinja_pat`. -/
def isJinjaLine (line : String) : Bool :=
  jinjaPatMatches (pyRStrip line).toList

/-- The tail of `good_jinja_pat` after `set\s`: exactly
`t1 ++ ws ++ "=" ++ ws ++ t2 ++ ws ++ "%}"` with single whitespace characters
and `t1`, `t2` nonempty whitespace-free (existential because `t1`, `t2` may
contain `=` or `%`). -/
def goodJinjaAfter (r : List Char) : Bool :=
  (List.range r.length).any (fun e =>
    (charAt r e = '=') && decide (2 ≤ e) &&
    isPySpace (charAt r (e - 1)) &&
    (r.take (e - 1)).all (fun c => !isPySpace c) &&
    isPySpace (charAt r (e + 1)) &&
    (let r2 := r.drop (e + 2)
     (List.range (r2.length + 1)).any (fun k =>
       decide (1 ≤ k) && decide (k ≤ r2.length) &&
       (r2.take k).all (fun c => !isPySpace c) &&
       isPySpace (charAt r2 k) &&
       List.isPrefixOf ['%', rbrace] (r2.drop (k + 1)))))

/-- `good_jinja_pat.match(jinja_line)` is not `None`, applied to the raw line
(a prefix match, so a trailing newline is irrelevant). -/
def goodJinjaLine (line : String) : Bool :=
  let cs := line.toList
  let c1 := cs.dropWhile isPySpace
  List.isPrefixOf [lbrace, '%'] c1 &&
  (let c2 := c1.drop 2
   isPySpace (charAt c2 0) &&
   List.isPrefixOf ['s', 'e', 't'] (c2.drop 1) &&
   isPySpace (charAt c2 4) &&
   goodJinjaAfter (c2.drop 5))

/-! ### Line enumeration generators

`selector_lines` and `jinja_lines` enumerate the file lines from 0 and yield
`(line, line_number)` for the lines their classifier accepts. -/

/-- The common shape of the two generators, starting at index `i`. -/
def enumFilterLines (p : String → Bool) (i : Nat) : List String → List (String × Nat)
  | [] => []
  | l :: ls => (if p l then [(l, i)] else []) ++ enumFilterLines p (i + 1) ls

/-- `selector_lines` from the source. -/
def selectorLines (lines : List String) : List (String × Nat) :=
  enumFilterLines isSelectorLine 0 lines

/-- `jinja_lines` from the source. -/
def jinjaLines (lines : List String) : List (String × Nat) :=
  enumFilterLines isJinjaLine 0 lines

/-- The zero-based line numbers rule 6 reports: selector lines that fail the
tidy pattern. -/
def badSelectorNums (lines : List String) : List Nat :=
  (((selectorLines lines).filter (fun p => !goodSelectorLine p.1)).map (·.2))

/-- The zero-based line numbers rule 20 reports: Jinja assignment lines that
fail the tidy pattern. -/
def badJinjaNums (lines : List String) : List Nat :=
  (((jinjaLines lines).filter (fun p => !goodJinjaLine p.1)).map (·.2))

/-! ### External state

All ambient state the module reads is made an explicit input: the filesystem,
and the external collaborators (the conda-build field schema, the
license-family validator, the version parser, and the GitHub lookup service
used by the conda-forge specific rules). -/

/-- The filesystem as the module observes it: `os.path.exists` and the text
content `io.open(...).read()` yields for a path. -/
structure FS where
  pathExists : String → Bool
  content : String → String

/-- The external collaborators.
  * `fields`: conda-build `FIELDS` (section name to permitted subsection
    names; `[]` for sections without a schema, making `FIELDS.get(section, [])`
    falsy so rule 16 skips them).
  * `licenseFamilyErr`: `ensure_valid_license_family(meta)` — `some msg` when
    it raises `RuntimeError(msg)`.
  * `versionOk`: whether `conda_build.conda_interface.VersionOrder(ver)`
    succeeds.
  * `feedstockExists`, `biocondaHasRecipe`, `userExists`: the GitHub lookups
    of `run_conda_forge_specific` ("exists" versus the distinguished
    `UnknownObjectException`); the configured token and organization are part
    of this state. -/
structure Ext where
  fields : String → List String
  licenseFamilyErr : List (String × YVal) → Option String
  versionOk : String → Bool
  feedstockExists : String → Bool
  biocondaHasRecipe : String → Bool
  userExists : String → Bool

/-- The module-load fixup `FIELDS['extra'].add('recipe-maintainers')`
(membership semantics of the set add). -/
def effFields (f : String → List String) (s : String) : List String :=
  if s = "extra" then
    if (f "extra").contains "recipe-maintainers" then f "extra"
    else "recipe-maintainers" :: f "extra"
  else f s

/-! ### Section accessors -/

/-- `get_list_section(parent, name, lints, allow_single)`: a mapping is
wrapped into a one-element list when `allow_single`; a list passes through; a
string (a `Sequence` but excluded) and every other value produce a shape
finding and the `[{}]` placeholder. -/
def getListSection (parent : List (String × YVal)) (name : String) (allowSingle : Bool) :
    List YVal × List Lint :=
  match pyGetD parent name (.list []) with
  | .map kvs =>
      if allowSingle then ([.map kvs], [])
      else ([.map []], [.listSectionWrongType name allowSingle (pyTypeModule (.map kvs)) (pyTypeName (.map kvs))])
  | .list xs => (xs, [])
  | v => ([.map []], [.listSectionWrongType name allowSingle (pyTypeModule v) (pyTypeName v)])

/-- The mapping branch of `get_section`: absent gives `{}` silently; a
non-mapping value produces a shape finding and `{}`. -/
def getMapSection (parent : List (String × YVal)) (name : String) :
    List (String × YVal) × List Lint :=
  match pyLookup parent name with
  | some (.map kvs) => (kvs, [])
  | some v => ([], [.sectionExpectedDict name (pyTypeName v)])
  | Option.none => ([], [])

/-- The value `get_section` returns: a list for `source`/`outputs`, a mapping
otherwise.  Iterating it in Python yields the list elements, respectively the
mapping keys. -/
inductive SectionVal where
  | mapS (kvs : List (String × YVal))
  | listS (xs : List YVal)

/-- `get_section(parent, name, lints)`. -/
def getSection (parent : List (String × YVal)) (name : String) : SectionVal × List Lint :=
  if name = "source" then
    let r := getListSection parent name true
    (.listS r.1, r.2)
  else if name = "outputs" then
    let r := getListSection parent name false
    (.listS r.1, r.2)
  else
    let r := getMapSection parent name
    (.mapS r.1, r.2)

/-! ### The individual rules of `lintify` -/

/-- The top-level keys, `list(meta.keys())`. -/
def metaKeys (meta : List (String × YVal)) : List String :=
  meta.map (·.1)

/-- Python `sorted(l, key=key)`: the stable sort by the key, modelled by the
stable insertion sort under `key a ≤ key b` (stable sorts by the same key
agree on every list). -/
def pySortByKey (key : α → Nat) (l : List α) : List α :=
  List.insertionSort (fun a b => key a ≤ key b) l

/-- `EXPECTED_SECTION_ORDER.index` (total here; `lintify` only applies it to
keys of the table). -/
def expectedIdx (s : String) : Nat :=
  EXPECTED_SECTION_ORDER.indexOf s

/-- `REQUIREMENTS_ORDER.index`. -/
def requirementsIdx (s : String) : Nat :=
  REQUIREMENTS_ORDER.indexOf s

/-- `lint_section_order(major_sections, lints)`. -/
def lintSectionOrder (majorSections : List String) : List Lint :=
  let sorted := pySortByKey expectedIdx majorSections
  if majorSections ≠ sorted then [.sectionOrder sorted] else []

/-- `lint_about_contents(about_section, lints)`. -/
def lintAboutContents (aboutSection : List (String × YVal)) : List Lint :=
  ["home", "license", "summary"].filterMap (fun item =>
    if !pyTruthy (pyGetD aboutSection item (.str "")) then some (.aboutItemMissing item)
    else Option.none)

/-- The `test` section of one output, `get_section(out, 'test', lints)`.
On well-formed documents every output is a mapping; CPython raises
`AttributeError` otherwise (`out.get`), which `wfDoc` excludes. -/
def outputTestSection (out : YVal) : List (String × YVal) × List Lint :=
  match out with
  | .map kvs => getMapSection kvs "test"
  | _ => ([], [])

/-- Whether one output has `test.imports` or `test.commands`. -/
def outputHasTest (out : YVal) : Bool :=
  (outputTestSection out).1.any (fun kv => TEST_KEYS.contains kv.1)

/-- `out.get('name', '???')` formatted into the hint. -/
def outName (out : YVal) : String :=
  match out with
  | .map kvs => pyStr (pyGetD kvs "name" (.str "???"))
  | _ => "???"

/-- Whether any of the known test scripts exists next to the recipe
(`recipe_dir is not None and any(os.path.exists(...))`). -/
def aTestFileExists (recipeDir : Option String) (fs : FS) : Bool :=
  recipeDir.isSome && TEST_FILES.any (fun f => fs.pathExists (pyJoin (recipeDir.getD "") f))

/-- Rule 4, "The recipe should have some tests": the findings and hints it
appends.  The loop over outputs first appends the shape findings of the
per-output `get_section` calls; the hints are extended only when at least one
output has a test, otherwise the single blocking error is appended. -/
def testsRule (testSection : List (String × YVal)) (outputs : List YVal)
    (testFileExists : Bool) : List Lint × List Lint :=
  if testSection.any (fun kv => TEST_KEYS.contains kv.1) then ([], [])
  else if testFileExists then ([], [])
  else if outputs.any outputHasTest then
    (outputs.flatMap (fun o => (outputTestSection o).2),
     outputs.filterMap (fun o =>
       if outputHasTest o then Option.none else some (.outputMissingTests (outName o))))
  else (outputs.flatMap (fun o => (outputTestSection o).2) ++ [.mustHaveTests], [])

/-- `'x' in v` for the container shapes rule 15 / rule 21 meet: substring of
a string, element of a list, key of a mapping.  CPython raises `TypeError`
on the remaining truthy values (excluded by `wfDoc`). -/
def pyContains (needle : String) : YVal → Bool
  | .str s => pyInStr needle s
  | .list xs => xs.any (fun v => match v with | .str s => s = needle | _ => false)
  | .map kvs => kvs.any (·.1 = needle)
  | _ => false

/-- The keys of one source entry; rule 9 requires mappings (`wfDoc`). -/
def srcKeys (v : YVal) : List String :=
  match v with
  | .map kvs => kvs.map (·.1)
  | _ => []

/-- Rule 9 for one source entry. -/
def sourceHashRule (src : YVal) : List Lint :=
  if (srcKeys src).contains "url" &&
     !(["sha1", "sha256", "md5"].any (fun h => (srcKeys src).contains h)) then
    [.missingHash]
  else []

/-- `^[a-z0-9_\-.]+$` on the stripped name (`re.match` with `$`; the name has
no trailing newline after `strip`). -/
def recipeNameOk (s : String) : Bool :=
  !s.isEmpty && s.toList.all (fun c =>
    ('a' ≤ c && c ≤ 'z') || ('0' ≤ c && c ≤ '9') || c = '_' || c = '-' || c = '.')

/-- Count of empty lines at the end of `f.read().split('\n')`
(`itertools.takewhile` over the reversed list). -/
def endEmptyLinesCount (content : String) : Nat :=
  ((pySplitNl content).reverse.takeWhile (· = "")).length

/-- Rule 11's findings given the count. -/
def trailingRule (k : Nat) : List Lint :=
  if k > 1 then [.trailingTooMany (k - 1)]
  else if k < 1 then [.trailingTooFew]
  else []

/-- The Python iteration rule 16 applies to one entry of a `source`/`outputs`
list: a mapping yields its keys, a string its characters.  Well-formed
documents only put mappings there (CPython raises on the remaining shapes,
via the unhashable membership test or non-iterability). -/
def pyIterKeys : YVal → List String
  | .map kvs => kvs.map (·.1)
  | .str s => s.toList.map Char.toString
  | _ => []

/-- Rule 16 for one top-level section name (a member of the post-removal
`major_sections`): skip when the schema has no fields for it, otherwise
re-run `get_section` (appending its shape findings again, as the source
does) and compare subsection names against the schema. -/
def subsectionRule (meta : List (String × YVal)) (fields : String → List String)
    (section_ : String) : List Lint :=
  if (fields section_).isEmpty then []
  else
    (getSection meta section_).2 ++
    (match (getSection meta section_).1 with
     | .mapS kvs => (kvs.map (·.1)).flatMap (fun sub =>
         if section_ ≠ "source" && section_ ≠ "outputs" && !((fields section_).contains sub) then
           [.unexpectedSubsection section_ sub]
         else [])
     | .listS xs => xs.flatMap (fun sub =>
         if section_ = "source" || section_ = "outputs" then
           (pyIterKeys sub).flatMap (fun k =>
             if !((fields section_).contains k) then [.unexpectedSubsection section_ k] else [])
         else []))

/-- Rule 16 over the post-removal `major_sections`. -/
def rule16 (meta : List (String × YVal)) (fields : String → List String)
    (majorSections : List String) : List Lint :=
  majorSections.flatMap (subsectionRule meta fields)

/-- Rule 12: surface the message of a raising license-family validation. -/
def licenseFamilyRule (o : Option String) : List Lint :=
  match o with
  | some msg => [.licenseFamilyError msg]
  | Option.none => []

/-! ### Rule 17: `noarch` and selectors

The scan keeps two locals: whether the cursor is inside a `requirements:`
block, and the leading whitespace of the `requirements:` line.  A `skip:`
line that is a selector line trips the rule anywhere; inside the block every
selector line trips it; the block ends at the first line whose
`pyLeading`-indentation equals that of the `requirements:` line.  The source
breaks out of the loop at the first hit, so at most one finding is appended. -/

/-- The scanning loop of rule 17: `true` iff it appends the finding (and
breaks). -/
def noarchScan : List String → Bool → String → Bool
  | [], _, _ => false
  | line :: rest, inReq, spacing =>
    if pyStrip line = "requirements:" then noarchScan rest true (pyLeading line)
    else if pyStartsWith (pyStrip line) "skip:" && isSelectorLine line then true
    else if inReq then
      if spacing = pyLeading line then noarchScan rest false spacing
      else if isSelectorLine line then true
      else noarchScan rest true spacing
    else noarchScan rest false spacing

/-- Rule 17's findings. -/
def noarchRule (lines : List String) (noarchVal : String) : List Lint :=
  if noarchScan lines false "" then [.noarchSelector noarchVal] else []

/-- The specification-side labelling of the same scan, with no early exit:
each line paired with whether it lies strictly inside the `requirements:`
block (after a `requirements:` line and before the first line whose leading
indentation returns to that of the `requirements:` line; neither boundary
line is inside). -/
def noarchFlags : List String → Bool → String → List (String × Bool)
  | [], _, _ => []
  | line :: rest, inReq, spacing =>
    if pyStrip line = "requirements:" then (line, false) :: noarchFlags rest true (pyLeading line)
    else if inReq then
      if spacing = pyLeading line then (line, false) :: noarchFlags rest false spacing
      else (line, true) :: noarchFlags rest true spacing
    else (line, false) :: noarchFlags rest false spacing

/-- A labelled line that would trip rule 17: a `skip:` selector line
anywhere, or a selector line inside the `requirements:` block. -/
def noarchHitPred (p : String × Bool) : Bool :=
  (pyStartsWith (pyStrip p.1) "skip:" && isSelectorLine p.1) || (p.2 && isSelectorLine p.1)

/-- Some line of the file trips rule 17 (the claim-side existential). -/
def noarchHit (lines : List String) : Bool :=
  (noarchFlags lines false "").any noarchHitPred

/-! ### The conda-forge specific rules -/

/-- The strings `run_conda_forge_specific` iterates as maintainers: list
elements (strings on well-formed input) or, when the value is itself a
string, its characters (Python string iteration). -/
def maintainerStrs : YVal → List String
  | .list xs => xs.filterMap (fun v => match v with | .str s => some s | _ => Option.none)
  | .str s => s.toList.map Char.toString
  | _ => []

/-- `run_conda_forge_specific(meta, recipe_dir, lints, hints)`: the findings
and hints it appends, in order.  The GitHub lookups come from `Ext`; a
configured token is assumed (the spec requires the capability to be
configured), and transport failures other than the distinguished "not found"
are outside this model. -/
def runCondaForgeSpecific (meta : List (String × YVal)) (recipeDir : Option String)
    (ext : Ext) : List Lint × List Lint :=
  let package := getMapSection meta "package"
  let extra := getMapSection meta "extra"
  let recipeDirname :=
    match recipeDir with
    | some d => if d = "" then "recipe" else pyBasename d
    | Option.none => "recipe"
  let recipeName := pyStrip (pyGetStrD package.1 "name" "")
  let isStagedRecipes := recipeDirname ≠ "recipe"
  let r1l := if isStagedRecipes && recipeName ≠ "" && ext.feedstockExists recipeName then
      [Lint.feedstockExists] else []
  let r1h := if isStagedRecipes && recipeName ≠ "" && ext.biocondaHasRecipe recipeName then
      [Lint.biocondaExists] else []
  let maintainers := pyGetD extra.1 "recipe-maintainers" (.list [])
  let r2l := (maintainerStrs maintainers).filterMap (fun m =>
    if pyInStr "/" m then Option.none
    else if ext.userExists m then Option.none
    else some (.maintainerMissing m))
  let r3l :=
    match recipeDir with
    | some d => if pyInStr "recipes/example/" d then [Lint.exampleRecipeDir] else []
    | Option.none => []
  (package.2 ++ extra.2 ++ r1l ++ r2l ++ r3l, r1h)

/-! ### `lintify` -/

/-- The path `os.path.join(recipe_dir or '', 'meta.yaml')`. -/
def metaFname (recipeDir : Option String) : String :=
  pyJoin (recipeDir.getD "") "meta.yaml"

/-- The scripts the pip hint scans: a string is wrapped in a one-element
list; a list contributes its string elements (CPython raises on non-string
elements of the list, excluded by `wfDoc`); a mapping would be iterated by
keys. -/
def pipScripts : YVal → List String
  | .str s => [s]
  | .list xs => xs.filterMap (fun v => match v with | .str s => some s | _ => Option.none)
  | .map kvs => kvs.map (·.1)
  | _ => []

/-- `lintify(meta, recipe_dir, conda_forge)` over the explicit filesystem and
collaborator state: the `(lints, hints)` pair, with findings in the exact
order the source appends them. -/
def lintify (meta : List (String × YVal)) (recipeDir : Option String) (fs : FS)
    (condaForge : Bool) (ext : Ext) : List Lint × List Lint :=
  let fname := metaFname recipeDir
  let sourcesSection := getListSection meta "source" true
  let buildSection := getMapSection meta "build"
  let requirementsSection := getMapSection meta "requirements"
  let testSection := getMapSection meta "test"
  let aboutSection := getMapSection meta "about"
  let extraSection := getMapSection meta "extra"
  let packageSection := getMapSection meta "package"
  let outputsSection := getListSection meta "outputs" false
  let majorSections := metaKeys meta
  -- rule 0: unexpected top level keys, collected then removed from the copy
  let unexpected := majorSections.filter (fun k => !(EXPECTED_SECTION_ORDER.contains k))
  let r0 := unexpected.map Lint.unexpectedTopLevelKey
  let reduced := unexpected.foldl List.erase majorSections
  -- rule 1
  let r1 := lintSectionOrder reduced
  -- rule 2
  let r2 := lintAboutContents aboutSection.1
  -- rules 3a and 3b
  let maintainersVal := pyGetD extraSection.1 "recipe-maintainers" (.list [])
  let r3a := if !pyTruthy maintainersVal then [Lint.noMaintainers] else []
  let r3b := if !isSeqNotStr maintainersVal then [Lint.maintainersNotList] else []
  -- rule 4
  let r4 := testsRule testSection.1 outputsSection.1 (aTestFileExists recipeDir fs)
  -- rule 5
  let license := pyLower (pyGetStrD aboutSection.1 "license" "")
  let r5 := if pyStrip license = "unknown" then [Lint.licenseUnknown] else []
  -- rule 6
  let fileLines := pyFileLines (fs.content fname)
  let r6 :=
    if recipeDir.isSome && fs.pathExists fname then
      let bad := badSelectorNums fileLines
      if !bad.isEmpty then [Lint.badSelectors bad] else []
    else []
  -- rule 7
  let r7 := if isPyNone (pyGetD buildSection.1 "number" .none) then
      [Lint.missingBuildNumber] else []
  -- rule 8
  let seenRequirements := (requirementsSection.1.map (·.1)).filter
      (fun k => REQUIREMENTS_ORDER.contains k)
  let r8 := if seenRequirements ≠ pySortByKey requirementsIdx seenRequirements then
      [Lint.requirementsOrder seenRequirements] else []
  -- rule 9
  let r9 := sourcesSection.1.flatMap sourceHashRule
  -- rule 10
  let r10 := if pyInStr "license" (pyLower license) then [Lint.licenseHasLicense] else []
  -- rule 11
  let r11 :=
    if recipeDir.isSome && fs.pathExists fname then
      trailingRule (endEmptyLinesCount (fs.content fname))
    else []
  -- rule 12
  let r12 := licenseFamilyRule (ext.licenseFamilyErr meta)
  -- rule 13
  let recipeName := pyStrip (pyGetStrD packageSection.1 "name" "")
  let r13 := if !recipeNameOk recipeName then [Lint.badRecipeName] else []
  -- rule 14
  let adv := if condaForge then runCondaForgeSpecific meta recipeDir ext else ([], [])
  -- rule 15
  let buildReqs := pyGetD requirementsSection.1 "build" .none
  let r15 := if pyTruthy buildReqs && pyContains "numpy x.x" buildReqs then
      [Lint.numpyPinned] else []
  -- rule 16
  let r16l := rule16 meta (effFields ext.fields) reduced
  -- rule 17
  let r17 :=
    if !isPyNone (pyGetD buildSection.1 "noarch" .none) && fs.pathExists fname then
      noarchRule fileLines (pyStr (pyGetD buildSection.1 "noarch" .none))
    else []
  -- rule 19
  let versionVal := pyGetD packageSection.1 "version" .none
  let r19 :=
    if !isPyNone versionVal then
      if ext.versionOk (pyStr versionVal) then [] else [Lint.badVersion (pyStr versionVal)]
    else []
  -- rule 20
  let r20 :=
    if recipeDir.isSome && fs.pathExists fname then
      let bad := badJinjaNums fileLines
      if !bad.isEmpty then [Lint.badJinja bad] else []
    else []
  -- rule 21
  let r21 := if pyTruthy buildReqs && pyContains "toolchain" buildReqs then
      [Lint.toolchainDeprecated] else []
  -- pip hint
  let pipH :=
    if (pyLookup buildSection.1 "script").isSome then
      ((pipScripts (pyGetD buildSection.1 "script" .none)).filter
        (fun s => pyInStr "python setup.py install" s)).map (fun _ => Lint.usePip)
    else []
  (sourcesSection.2 ++ buildSection.2 ++ requirementsSection.2 ++ testSection.2 ++
     aboutSection.2 ++ extraSection.2 ++ packageSection.2 ++ outputsSection.2 ++
     r0 ++ r1 ++ r2 ++ r3a ++ r3b ++ r4.1 ++ r5 ++ r6 ++ r7 ++ r8 ++ r9 ++ r10 ++
     r11 ++ r12 ++ r13 ++ adv.1 ++ r15 ++ r16l ++ r17 ++ r19 ++ r20 ++ r21,
   r4.2 ++ adv.2 ++ pipH)

/-! ### Well-formed documents

`wfDoc` delimits the documents on which the Python code runs to completion:
top-level keys are distinct (they come from a dict), and the handful of
values the code applies string/iteration operations to have the shapes those
operations require (CPython raises `AttributeError`/`TypeError` otherwise,
and no findings are produced at all).  All universally quantified claims
range over these documents. -/

/-- Boolean distinctness of a key list. -/
def nodupKeys : List String → Bool
  | [] => true
  | k :: ks => !(ks.contains k) && nodupKeys ks

/-- The key is absent or maps to a string. -/
def strOrAbsent (kvs : List (String × YVal)) (k : String) : Bool :=
  match pyLookup kvs k with
  | some (.str _) => true
  | some _ => false
  | Option.none => true

/-- The key is absent or maps to a non-container value. -/
def scalarOrAbsent (kvs : List (String × YVal)) (k : String) : Bool :=
  match pyLookup kvs k with
  | some (.list _) => false
  | some (.map _) => false
  | _ => true

/-- The value is a mapping. -/
def isMapVal : YVal → Bool
  | .map _ => true
  | _ => false

/-- A `build.script` value the pip hint can scan: a string or a list of
strings. -/
def wfScript : YVal → Bool
  | .str _ => true
  | .list xs => xs.all (fun v => match v with | .str _ => true | _ => false)
  | _ => false

/-- A `requirements.build` value rules 15 and 21 can apply `in` to (or that
is `None`/absent). -/
def wfBuildReqs : YVal → Bool
  | .none => true
  | .str _ => true
  | .list _ => true
  | .map _ => true
  | _ => false

/-- Well-formedness of a document (see the section comment). -/
def wfDoc (meta : List (String × YVal)) : Bool :=
  nodupKeys (metaKeys meta) &&
  (match pyLookup meta "about" with
   | some (.map a) => strOrAbsent a "license"
   | _ => true) &&
  (match pyLookup meta "package" with
   | some (.map p) => strOrAbsent p "name" && scalarOrAbsent p "version"
   | _ => true) &&
  (match pyLookup meta "outputs" with
   | some (.list xs) => xs.all (fun o => isMapVal o &&
       (match o with | .map m => scalarOrAbsent m "name" | _ => true))
   | _ => true) &&
  (match pyLookup meta "source" with
   | some (.list xs) => xs.all isMapVal
   | _ => true) &&
  (match pyLookup meta "build" with
   | some (.map b) =>
       (match pyLookup b "script" with
        | some v => wfScript v
        | Option.none => true) && scalarOrAbsent b "noarch"
   | _ => true) &&
  (match pyLookup meta "requirements" with
   | some (.map r) =>
       (match pyLookup r "build" with
        | some v => wfBuildReqs v
        | Option.none => true)
   | _ => true)

/-! ### `main`

`main(recipe_dir, conda_forge, return_hints)` joins `meta.yaml` onto the
recipe directory, raises the distinguished
`IOError('Feedstock has no recipe/meta.yaml.')` when — as written — the
*directory* does not exist, and otherwise opens the file: when the directory
exists but `meta.yaml` is absent, `io.open` raises its own
`FileNotFoundError` instead.  Rendering (`render_meta_yaml`, an external
templating collaborator per the spec) and the YAML load are abstracted as
input functions; the directory is taken as already absolute
(`os.path.abspath`). -/

/-- The exceptions `main` can propagate before linting runs. -/
inductive MainErr where
  /-- the distinguished `IOError('Feedstock has no recipe/meta.yaml.')` -/
  | missingRecipe
  /-- the generic `FileNotFoundError` of `io.open` on a missing file -/
  | openFileNotFound
deriving DecidableEq

/-- `main(recipe_dir, conda_forge, return_hints=True)`. -/
def mainModel (fs : FS) (ext : Ext) (render : String → String)
    (parse : String → List (String × YVal)) (recipeDir : String) (condaForge : Bool) :
    Except MainErr (List Lint × List Lint) :=
  let recipeMeta := pyJoin recipeDir "meta.yaml"
  if !fs.pathExists recipeDir then .error .missingRecipe
  else if !fs.pathExists recipeMeta then .error .openFileNotFound
  else .ok (lintify (parse (render (fs.content recipeMeta))) (some recipeDir) fs condaForge ext)

/-! ### Document-threaded `lintify`

For the frame claim, the pass is restated with the document object threaded
explicitly through every step that touches it, in source order: each step
returns the document it leaves behind.  The key-list the source copies with
`list(meta.keys())` and then shrinks with `.remove` is a separate value; the
reads (`dict.get`, key iteration) hand the document back unchanged. -/

/-- A `get_section`-style read of the document: result, findings, and the
document as the step leaves it. -/
def getMapSectionT (d : List (String × YVal)) (name : String) :
    (List (String × YVal) × List Lint) × List (String × YVal) :=
  (getMapSection d name, d)

/-- A `get_list_section`-style read. -/
def getListSectionT (d : List (String × YVal)) (name : String) (allowSingle : Bool) :
    (List YVal × List Lint) × List (String × YVal) :=
  (getListSection d name allowSingle, d)

/-- `list(meta.keys())`: a fresh list, document unchanged. -/
def copyKeysT (d : List (String × YVal)) : List String × List (String × YVal) :=
  (metaKeys d, d)

/-- The whole pass with the document threaded through each step. -/
def lintifyT (meta : List (String × YVal)) (recipeDir : Option String) (fs : FS)
    (condaForge : Bool) (ext : Ext) : (List Lint × List Lint) × List (String × YVal) :=
  let fname := metaFname recipeDir
  let s1 := getListSectionT meta "source" true
  let s2 := getMapSectionT s1.2 "build"
  let s3 := getMapSectionT s2.2 "requirements"
  let s4 := getMapSectionT s3.2 "test"
  let s5 := getMapSectionT s4.2 "about"
  let s6 := getMapSectionT s5.2 "extra"
  let s7 := getMapSectionT s6.2 "package"
  let s8 := getListSectionT s7.2 "outputs" false
  let sk := copyKeysT s8.2
  let d0 := sk.2
  let majorSections := sk.1
  let unexpected := majorSections.filter (fun k => !(EXPECTED_SECTION_ORDER.contains k))
  let r0 := unexpected.map Lint.unexpectedTopLevelKey
  -- `.remove` acts on the copied list, never on the document
  let reduced := unexpected.foldl List.erase majorSections
  let r1 := lintSectionOrder reduced
  let r2 := lintAboutContents s5.1.1
  let maintainersVal := pyGetD s6.1.1 "recipe-maintainers" (.list [])
  let r3a := if !pyTruthy maintainersVal then [Lint.noMaintainers] else []
  let r3b := if !isSeqNotStr maintainersVal then [Lint.maintainersNotList] else []
  let r4 := testsRule s4.1.1 s8.1.1 (aTestFileExists recipeDir fs)
  let license := pyLower (pyGetStrD s5.1.1 "license" "")
  let r5 := if pyStrip license = "unknown" then [Lint.licenseUnknown] else []
  let fileLines := pyFileLines (fs.content fname)
  let r6 :=
    if recipeDir.isSome && fs.pathExists fname then
      let bad := badSelectorNums fileLines
      if !bad.isEmpty then [Lint.badSelectors bad] else []
    else []
  let r7 := if isPyNone (pyGetD s2.1.1 "number" .none) then [Lint.missingBuildNumber] else []
  let seenRequirements := (s3.1.1.map (·.1)).filter (fun k => REQUIREMENTS_ORDER.contains k)
  let r8 := if seenRequirements ≠ pySortByKey requirementsIdx seenRequirements then
      [Lint.requirementsOrder seenRequirements] else []
  let r9 := s1.1.1.flatMap sourceHashRule
  let r10 := if pyInStr "license" (pyLower license) then [Lint.licenseHasLicense] else []
  let r11 :=
    if recipeDir.isSome && fs.pathExists fname then
      trailingRule (endEmptyLinesCount (fs.content fname))
    else []
  let s12 := (ext.licenseFamilyErr d0, d0)
  let r12 := licenseFamilyRule s12.1
  let recipeName := pyStrip (pyGetStrD s7.1.1 "name" "")
  let r13 := if !recipeNameOk recipeName then [Lint.badRecipeName] else []
  let s14 := (if condaForge then runCondaForgeSpecific s12.2 recipeDir ext else ([], []), s12.2)
  let adv := s14.1
  let buildReqs := pyGetD s3.1.1 "build" .none
  let r15 := if pyTruthy buildReqs && pyContains "numpy x.x" buildReqs then
      [Lint.numpyPinned] else []
  let s16 := (rule16 s14.2 (effFields ext.fields) reduced, s14.2)
  let r16l := s16.1
  let r17 :=
    if !isPyNone (pyGetD s2.1.1 "noarch" .none) && fs.pathExists fname then
      noarchRule fileLines (pyStr (pyGetD s2.1.1 "noarch" .none))
    else []
  let versionVal := pyGetD s7.1.1 "version" .none
  let r19 :=
    if !isPyNone versionVal then
      if ext.versionOk (pyStr versionVal) then [] else [Lint.badVersion (pyStr versionVal)]
    else []
  let r20 :=
    if recipeDir.isSome && fs.pathExists fname then
      let bad := badJinjaNums fileLines
      if !bad.isEmpty then [Lint.badJinja bad] else []
    else []
  let r21 := if pyTruthy buildReqs && pyContains "toolchain" buildReqs then
      [Lint.toolchainDeprecated] else []
  let pipH :=
    if (pyLookup s2.1.1 "script").isSome then
      ((pipScripts (pyGetD s2.1.1 "script" .none)).filter
        (fun s => pyInStr "python setup.py install" s)).map (fun _ => Lint.usePip)
    else []
  ((s1.1.2 ++ s2.1.2 ++ s3.1.2 ++ s4.1.2 ++ s5.1.2 ++ s6.1.2 ++ s7.1.2 ++ s8.1.2 ++
      r0 ++ r1 ++ r2 ++ r3a ++ r3b ++ r4.1 ++ r5 ++ r6 ++ r7 ++ r8 ++ r9 ++ r10 ++
      r11 ++ r12 ++ r13 ++ adv.1 ++ r15 ++ r16l ++ r17 ++ r19 ++ r20 ++ r21,
    r4.2 ++ adv.2 ++ pipH),
   s16.2)

/-! ### Finding classifiers used by the claims -/

def isMustHaveTestsL : Lint → Bool
  | .mustHaveTests => true
  | _ => false

def isOutputMissingTestsL : Lint → Bool
  | .outputMissingTests _ => true
  | _ => false

def isUnexpectedKeyL : Lint → Bool
  | .unexpectedTopLevelKey _ => true
  | _ => false

def isSectionOrderL : Lint → Bool
  | .sectionOrder _ => true
  | _ => false

def isRequirementsOrderL : Lint → Bool
  | .requirementsOrder _ => true
  | _ => false

def isTrailingL : Lint → Bool
  | .trailingTooMany _ => true
  | .trailingTooFew => true
  | _ => false

def isNoarchSelectorL : Lint → Bool
  | .noarchSelector _ => true
  | _ => false

def isBadSelectorsL : Lint → Bool
  | .badSelectors _ => true
  | _ => false

def isBadJinjaL : Lint → Bool
  | .badJinja _ => true
  | _ => false

/-- Set the value of a top-level key: replace it in place when present
(keeping the key order), append otherwise.  Used to state the shape-tolerance
claim (`source` given as a mapping versus as a one-element list). -/
def setKeyVal (kvs : List (String × YVal)) (k : String) (v : YVal) :
    List (String × YVal) :=
  if kvs.any (·.1 = k) then kvs.map (fun kv => if kv.1 = k then (k, v) else kv)
  else kvs ++ [(k, v)]

/-- A filesystem with no files, for concrete examples. -/
def fsNone : FS := ⟨fun _ => false, fun _ => ""⟩

/-- A filesystem where every path exists and reads as `c`. -/
def fsWith (c : String) : FS := ⟨fun _ => true, fun _ => c⟩

/-- A collaborator state with an empty field schema, a never-raising
license-family validator, an always-accepting version parser, and remote
lookups finding no feedstock or bioconda recipe, for concrete examples. -/
def extTriv : Ext :=
  ⟨fun _ => [], fun _ => Option.none, fun _ => true,
    fun _ => false, fun _ => false, fun _ => true⟩

/-! ## Helper lemmas -/

theorem pySortByKey_pairwise {α : Type _} (key : α → Nat) (l : List α) :
    (pySortByKey key l).Pairwise (fun a b => key a ≤ key b) := by
  haveI : IsTotal α (fun a b => key a ≤ key b) := ⟨fun a b => Nat.le_total _ _⟩
  haveI : IsTrans α (fun a b => key a ≤ key b) := ⟨fun _ _ _ => Nat.le_trans⟩
  exact List.sorted_insertionSort _ l

/-- The stable sort fixes a list exactly when adjacent keys are already in
non-decreasing order. -/
theorem pySortByKey_eq_self_iff {α : Type _} (key : α → Nat) (l : List α) :
    pySortByKey key l = l ↔ l.Pairwise (fun a b => key a ≤ key b) := by
  constructor
  · intro h
    have := pySortByKey_pairwise key l
    rwa [h] at this
  · intro h
    exact List.Sorted.insertionSort_eq h

theorem foldl_erase_cons (a : String) :
    ∀ (L : List String) (t : List String), (∀ x ∈ L, x ≠ a) →
      L.foldl List.erase (a :: t) = a :: L.foldl List.erase t := by
  intro L
  induction L with
  | nil => intro t _; rfl
  | cons x L ih =>
      intro t h
      have hxa : x ≠ a := h x (List.mem_cons_self _ _)
      simp only [List.foldl_cons]
      rw [List.erase_cons_tail (by simpa using hxa.symm)]
      exact ih (t.erase x) (fun y hy => h y (List.mem_cons_of_mem _ hy))

/-- Removing (`list.remove`-style, first occurrence) every element that
satisfies `p` from a duplicate-free list leaves the elements that do not. -/
theorem foldl_erase_filter (p : String → Bool) :
    ∀ ks : List String, ks.Nodup →
      (ks.filter p).foldl List.erase ks = ks.filter (fun k => !p k) := by
  intro ks
  induction ks with
  | nil => intro _; rfl
  | cons a t ih =>
      intro hnd
      have hna : a ∉ t := (List.nodup_cons.1 hnd).1
      have hndt : t.Nodup := (List.nodup_cons.1 hnd).2
      by_cases hp : p a
      · simp only [List.filter_cons, hp, if_pos]
        simp only [List.foldl_cons, List.erase_cons_head]
        rw [ih hndt]
        simp [hp]
      · have hfc : List.filter p (a :: t) = List.filter p t := by simp [hp]
        rw [hfc, foldl_erase_cons a _ t
          (fun x hx => fun hxa => hna (hxa ▸ (List.mem_filter.1 hx).1)),
          ih hndt]
        simp [hp]

theorem nodupKeys_nodup : ∀ l : List String, nodupKeys l = true → l.Nodup := by
  intro l
  induction l with
  | nil => intro _; exact List.nodup_nil
  | cons k ks ih =>
      intro h
      simp only [nodupKeys, Bool.and_eq_true] at h
      exact List.nodup_cons.2 ⟨by simpa using h.1, ih h.2⟩

/-! The scan of rule 17 fires exactly when some line is flagged: a `skip:`
selector line anywhere, or a selector line strictly inside the
`requirements:` block. -/

theorem noarchScan_eq_hit :
    ∀ (lines : List String) (inReq : Bool) (spacing : String),
      noarchScan lines inReq spacing = (noarchFlags lines inReq spacing).any noarchHitPred := by
  intro lines
  induction lines with
  | nil => intro _ _; rfl
  | cons line rest ih =>
      intro inReq spacing
      by_cases h1 : pyStrip line = "requirements:"
      · have hpred : noarchHitPred (line, false) = false := by
          simp only [noarchHitPred, h1]
          simp [show pyStartsWith "requirements:" "skip:" = false from by decide]
        simp [noarchScan, noarchFlags, h1, hpred, ih]
      · by_cases h2 : (pyStartsWith (pyStrip line) "skip:" && isSelectorLine line) = true
        · have hpred : ∀ b, noarchHitPred (line, b) = true := by
            intro b
            simp [noarchHitPred, h2]
          by_cases h3 : inReq
          · by_cases h4 : spacing = pyLeading line <;>
              simp [noarchScan, noarchFlags, h1, h2, h3, h4, hpred]
          · simp [noarchScan, noarchFlags, h1, h2, h3, hpred]
        · have hpf : noarchHitPred (line, false) = false := by
            simp only [noarchHitPred]
            simp only [Bool.and_eq_true, not_and] at h2 ⊢
            by_cases hsk : pyStartsWith (pyStrip line) "skip:" = true <;>
              by_cases hsel : isSelectorLine line = true <;> simp_all
          have hpt : noarchHitPred (line, true) = isSelectorLine line := by
            simp only [noarchHitPred]
            by_cases hsk : pyStartsWith (pyStrip line) "skip:" = true <;>
              by_cases hsel : isSelectorLine line = true <;> simp_all
          by_cases h3 : inReq
          · by_cases h4 : spacing = pyLeading line
            · simp [noarchScan, noarchFlags, h1, h2, h3, h4, hpf, ih]
            · by_cases h5 : isSelectorLine line = true
              · simp [noarchScan, noarchFlags, h1, h2, h3, h4, h5, hpt]
              · simp [noarchScan, noarchFlags, h1, h2, h3, h4, h5, hpt, hpf, ih]
          · simp [noarchScan, noarchFlags, h1, h2, h3, hpf, ih]

theorem mem_enumFilterLines (p : String → Bool) :
    ∀ (lines : List String) (i k : Nat), k < lines.length → p (lines.getD k "") = true →
      (lines.getD k "", i + k) ∈ enumFilterLines p i lines := by
  intro lines
  induction lines with
  | nil => intro i k hk _; simp at hk
  | cons l ls ih =>
      intro i k hk hp
      cases k with
      | zero =>
          simp only [List.getD_cons_zero] at hp ⊢
          simp [enumFilterLines, hp]
      | succ k' =>
          have hk' : k' < ls.length := by simpa using hk
          have := ih (i + 1) k' hk' (by simpa using hp)
          simp only [List.getD_cons_succ]
          simp only [enumFilterLines, List.mem_append]
          right
          have harith : i + 1 + k' = i + (k' + 1) := by omega
          rwa [harith] at this

theorem mem_badSelectorNums (lines : List String) (k : Nat) (hk : k < lines.length)
    (hs : isSelectorLine (lines.getD k "") = true)
    (hg : goodSelectorLine (lines.getD k "") = false) :
    k ∈ badSelectorNums lines := by
  have h := mem_enumFilterLines isSelectorLine lines 0 k hk hs
  rw [Nat.zero_add] at h
  exact List.mem_map.2 ⟨(lines.getD k "", k),
    List.mem_filter.2 ⟨h, by simp only [hg, Bool.not_false]⟩, rfl⟩

theorem mem_badJinjaNums (lines : List String) (k : Nat) (hk : k < lines.length)
    (hs : isJinjaLine (lines.getD k "") = true)
    (hg : goodJinjaLine (lines.getD k "") = false) :
    k ∈ badJinjaNums lines := by
  have h := mem_enumFilterLines isJinjaLine lines 0 k hk hs
  rw [Nat.zero_add] at h
  exact List.mem_map.2 ⟨(lines.getD k "", k),
    List.mem_filter.2 ⟨h, by simp only [hg, Bool.not_false]⟩, rfl⟩

/-! Chunk lemmas: each finding-producing piece of `lintify` only emits its
own constructors, so filtering by any other classifier annihilates it. -/

theorem filter_nil_if_singleton (p : Lint → Bool) (c : Prop) [Decidable c] (x : Lint)
    (h : p x = false) : (if c then [x] else []).filter p = [] := by
  split <;> simp [h]

theorem filter_nil_if_list (p : Lint → Bool) (c : Prop) [Decidable c] (l : List Lint)
    (h : l.filter p = []) : (if c then l else []).filter p = [] := by
  split <;> simp [h]

theorem filter_nil_map (p : Lint → Bool) {α : Type _} (f : α → Lint) (l : List α)
    (h : ∀ a, p (f a) = false) : (l.map f).filter p = [] := by
  induction l with
  | nil => rfl
  | cons a l ih => simp [h, ih]

theorem filter_nil_flatMap (p : Lint → Bool) {α : Type _} (f : α → List Lint) (l : List α)
    (h : ∀ a, (f a).filter p = []) : (l.flatMap f).filter p = [] := by
  induction l with
  | nil => rfl
  | cons a l ih => simp [List.filter_append, h, ih]

theorem filter_nil_getMapSection (p : Lint → Bool) (parent : List (String × YVal))
    (name : String) (h : ∀ n t, p (.sectionExpectedDict n t) = false) :
    ((getMapSection parent name).2).filter p = [] := by
  rcases hv : pyLookup parent name with _ | v
  · simp [getMapSection, hv]
  · cases v <;> simp [getMapSection, hv, h]

theorem filter_nil_getListSection (p : Lint → Bool) (parent : List (String × YVal))
    (name : String) (b : Bool) (h : ∀ n a m t, p (.listSectionWrongType n a m t) = false) :
    ((getListSection parent name b).2).filter p = [] := by
  rcases hv : pyGetD parent name (.list []) with _ | _ | _ | _ | _ | _ <;>
    simp [getListSection, hv, h] <;> split <;> simp [h]

theorem filter_nil_getSection (p : Lint → Bool) (parent : List (String × YVal))
    (name : String) (h1 : ∀ n t, p (.sectionExpectedDict n t) = false)
    (h2 : ∀ n a m t, p (.listSectionWrongType n a m t) = false) :
    ((getSection parent name).2).filter p = [] := by
  unfold getSection
  split
  · exact filter_nil_getListSection p parent name true h2
  · split
    · exact filter_nil_getListSection p parent name false h2
    · exact filter_nil_getMapSection p parent name h1

theorem filter_nil_lintSectionOrder (p : Lint → Bool) (l : List String)
    (h : ∀ s, p (.sectionOrder s) = false) : (lintSectionOrder l).filter p = [] := by
  unfold lintSectionOrder
  exact filter_nil_if_singleton p _ _ (h _)

theorem filter_nil_lintAboutContents (p : Lint → Bool) (ab : List (String × YVal))
    (h : ∀ it, p (.aboutItemMissing it) = false) : (lintAboutContents ab).filter p = [] := by
  rw [List.filter_eq_nil_iff]
  intro x hx
  rcases List.mem_filterMap.1 hx with ⟨a, _, hfa⟩
  by_cases hc : pyTruthy (pyGetD ab a (.str "")) = true
  · simp [hc] at hfa
  · simp only [Bool.not_eq_true] at hc
    simp only [hc, Bool.not_false, if_pos] at hfa
    cases hfa
    simp [h]

theorem filter_nil_sourceHashRule (p : Lint → Bool) (src : YVal)
    (h : p .missingHash = false) : (sourceHashRule src).filter p = [] := by
  unfold sourceHashRule
  exact filter_nil_if_singleton p _ _ h

theorem filter_nil_trailingRule (p : Lint → Bool) (k : Nat)
    (h1 : ∀ n, p (.trailingTooMany n) = false) (h2 : p .trailingTooFew = false) :
    (trailingRule k).filter p = [] := by
  unfold trailingRule
  split
  · simp [h1]
  · split <;> simp [h2]

theorem filter_nil_licenseFamilyRule (p : Lint → Bool) (o : Option String)
    (h : ∀ m, p (.licenseFamilyError m) = false) : (licenseFamilyRule o).filter p = [] := by
  cases o <;> simp [licenseFamilyRule, h]

theorem filter_nil_noarchRule (p : Lint → Bool) (lines : List String) (v : String)
    (h : ∀ s, p (.noarchSelector s) = false) : (noarchRule lines v).filter p = [] := by
  unfold noarchRule
  exact filter_nil_if_singleton p _ _ (h _)

theorem filter_nil_outputTestSection (p : Lint → Bool) (out : YVal)
    (h : ∀ n t, p (.sectionExpectedDict n t) = false) :
    ((outputTestSection out).2).filter p = [] := by
  cases out <;>
    first
      | exact filter_nil_getMapSection p _ "test" h
      | rfl

theorem filter_nil_testsRule_fst (p : Lint → Bool) (t : List (String × YVal))
    (o : List YVal) (f : Bool) (hshape : ∀ n t', p (.sectionExpectedDict n t') = false)
    (hmust : p .mustHaveTests = false) : ((testsRule t o f).1).filter p = [] := by
  unfold testsRule
  split
  · rfl
  · split
    · rfl
    · split <;>
        simp [List.filter_append, hmust,
          filter_nil_flatMap p _ o (fun a => filter_nil_outputTestSection p a hshape)]

theorem filter_nil_testsRule_snd (p : Lint → Bool) (t : List (String × YVal))
    (o : List YVal) (f : Bool) (h : ∀ n, p (.outputMissingTests n) = false) :
    ((testsRule t o f).2).filter p = [] := by
  unfold testsRule
  split
  · rfl
  · split
    · rfl
    · split
      · rw [List.filter_eq_nil_iff]
        intro x hx
        rcases List.mem_filterMap.1 hx with ⟨a, _, hfa⟩
        by_cases hc : outputHasTest a = true
        · simp [hc] at hfa
        · simp only [Bool.not_eq_true] at hc
          simp only [hc, Bool.false_eq_true, if_false] at hfa
          cases hfa
          simp [h]
      · rfl

theorem filter_nil_pair_if_fst (p : Lint → Bool) (c : Prop) [Decidable c]
    (pr : List Lint × List Lint) (h : pr.1.filter p = []) :
    (((if c then pr else ([], [])) : List Lint × List Lint).1).filter p = [] := by
  split <;> simp [h]

theorem filter_nil_pair_if_snd (p : Lint → Bool) (c : Prop) [Decidable c]
    (pr : List Lint × List Lint) (h : pr.2.filter p = []) :
    (((if c then pr else ([], [])) : List Lint × List Lint).2).filter p = [] := by
  split <;> simp [h]

theorem filter_nil_condaForge_fst (p : Lint → Bool) (meta : List (String × YVal))
    (rd : Option String) (ext : Ext)
    (hshape : ∀ n t, p (.sectionExpectedDict n t) = false)
    (hf : p .feedstockExists = false)
    (hm : ∀ m, p (.maintainerMissing m) = false)
    (he : p .exampleRecipeDir = false) :
    ((runCondaForgeSpecific meta rd ext).1).filter p = [] := by
  simp only [runCondaForgeSpecific, List.filter_append]
  rw [filter_nil_getMapSection p meta "package" hshape,
    filter_nil_getMapSection p meta "extra" hshape,
    filter_nil_if_singleton p _ _ hf]
  have hmaint : ((maintainerStrs (pyGetD (getMapSection meta "extra").1
      "recipe-maintainers" (.list []))).filterMap (fun m =>
        if pyInStr "/" m then Option.none
        else if ext.userExists m then Option.none
        else some (.maintainerMissing m))).filter p = [] := by
    rw [List.filter_eq_nil_iff]
    intro x hx
    rcases List.mem_filterMap.1 hx with ⟨a, _, hfa⟩
    by_cases hc1 : pyInStr "/" a = true
    · simp [hc1] at hfa
    · by_cases hc2 : ext.userExists a = true
      · simp [hc1, hc2] at hfa
      · simp only [Bool.not_eq_true] at hc1 hc2
        simp only [hc1, hc2, Bool.false_eq_true, if_false] at hfa
        cases hfa
        simp [hm]
  rw [hmaint]
  rcases rd with _ | d <;> simp [filter_nil_if_singleton p _ _ he]

theorem filter_nil_condaForge_snd (p : Lint → Bool) (meta : List (String × YVal))
    (rd : Option String) (ext : Ext) (h : p .biocondaExists = false) :
    ((runCondaForgeSpecific meta rd ext).2).filter p = [] := by
  simp only [runCondaForgeSpecific]
  exact filter_nil_if_singleton p _ _ h

theorem filter_nil_subsectionRule (p : Lint → Bool) (meta : List (String × YVal))
    (fields : String → List String) (s : String)
    (h1 : ∀ n t, p (.sectionExpectedDict n t) = false)
    (h2 : ∀ n a m t, p (.listSectionWrongType n a m t) = false)
    (h3 : ∀ sec k, p (.unexpectedSubsection sec k) = false) :
    (subsectionRule meta fields s).filter p = [] := by
  unfold subsectionRule
  split
  · rfl
  · rw [List.filter_append, filter_nil_getSection p meta s h1 h2]
    split <;>
      simp only [List.nil_append] <;>
      refine filter_nil_flatMap p _ _ (fun a => ?_)
    · exact filter_nil_if_singleton p _ _ (h3 _ _)
    · exact filter_nil_if_list p _ _
        (filter_nil_flatMap p _ _ (fun k => filter_nil_if_singleton p _ _ (h3 _ _)))

theorem filter_nil_rule16 (p : Lint → Bool) (meta : List (String × YVal))
    (fields : String → List String) (ms : List String)
    (h1 : ∀ n t, p (.sectionExpectedDict n t) = false)
    (h2 : ∀ n a m t, p (.listSectionWrongType n a m t) = false)
    (h3 : ∀ sec k, p (.unexpectedSubsection sec k) = false) :
    (rule16 meta fields ms).filter p = [] := by
  exact filter_nil_flatMap p _ ms (fun s => filter_nil_subsectionRule p meta fields s h1 h2 h3)

theorem filter_nil_if_singleton_rev (p : Lint → Bool) (c : Prop) [Decidable c] (x : Lint)
    (h : p x = false) : (if c then [] else [x]).filter p = [] := by
  split <;> simp [h]

theorem filter_self_map (p : Lint → Bool) {α : Type _} (f : α → Lint) (l : List α)
    (h : ∀ a, p (f a) = true) : (l.map f).filter p = l.map f := by
  induction l with
  | nil => rfl
  | cons a l ih => simp [h, ih]

theorem wfDoc_nodup (meta : List (String × YVal)) (h : wfDoc meta = true) :
    (metaKeys meta).Nodup := by
  simp only [wfDoc, Bool.and_eq_true] at h
  exact nodupKeys_nodup _ h.1.1.1.1.1.1

/-! Congruence lemmas for the shape-tolerance claim: two documents that
differ only in a `source` key set to a mapping versus the one-element list of
that mapping have the same keys and the same normalized sections. -/

theorem metaKeys_map_setKey (kvs : List (String × YVal)) (k : String) (v : YVal) :
    (kvs.map (fun kv => if kv.1 = k then (k, v) else kv)).map (·.1) = kvs.map (·.1) := by
  induction kvs with
  | nil => rfl
  | cons kv rest ih =>
      by_cases h : kv.1 = k <;> simp [h, ih]

theorem metaKeys_setKeyVal (kvs : List (String × YVal)) (k : String) (v₁ v₂ : YVal) :
    metaKeys (setKeyVal kvs k v₁) = metaKeys (setKeyVal kvs k v₂) := by
  unfold setKeyVal
  split
  · show metaKeys _ = metaKeys _
    unfold metaKeys
    rw [metaKeys_map_setKey, metaKeys_map_setKey]
  · unfold metaKeys
    simp

theorem pyLookup_map_setKey (kvs : List (String × YVal)) (k : String) (v : YVal)
    (k' : String) (h : k' ≠ k) :
    pyLookup (kvs.map (fun kv => if kv.1 = k then (k, v) else kv)) k' = pyLookup kvs k' := by
  induction kvs with
  | nil => rfl
  | cons kv rest ih =>
      simp only [List.map_cons]
      by_cases hk : kv.1 = k
      · rw [if_pos hk]
        have h1 : ¬(k = k') := fun he => h he.symm
        have h2 : ¬(kv.1 = k') := by rw [hk]; exact h1
        simp [pyLookup, h1, h2, ih]
      · rw [if_neg hk]
        by_cases hc : kv.1 = k' <;> simp [pyLookup, hc, ih]

theorem pyLookup_append_single (kvs : List (String × YVal)) (k : String) (v : YVal)
    (k' : String) (h : k' ≠ k) :
    pyLookup (kvs ++ [(k, v)]) k' = pyLookup kvs k' := by
  induction kvs with
  | nil =>
      have h1 : ¬(k = k') := fun he => h he.symm
      simp [pyLookup, h1]
  | cons kv rest ih =>
      by_cases hc : kv.1 = k' <;> simp [pyLookup, hc, ih]

theorem pyLookup_setKeyVal_ne (kvs : List (String × YVal)) (k : String) (v : YVal)
    (k' : String) (h : k' ≠ k) : pyLookup (setKeyVal kvs k v) k' = pyLookup kvs k' := by
  unfold setKeyVal
  split
  · exact pyLookup_map_setKey kvs k v k' h
  · exact pyLookup_append_single kvs k v k' h

theorem pyLookup_map_setKey_self (kvs : List (String × YVal)) (k : String) (v : YVal)
    (hany : (kvs.any (·.1 = k)) = true) :
    pyLookup (kvs.map (fun kv => if kv.1 = k then (k, v) else kv)) k = some v := by
  induction kvs with
  | nil => simp at hany
  | cons kv rest ih =>
      simp only [List.map_cons]
      by_cases hk : kv.1 = k
      · simp [pyLookup, hk]
      · rw [if_neg hk]
        simp only [List.any_cons, Bool.or_eq_true, decide_eq_true_eq] at hany
        rcases hany with hh | hh
        · exact absurd hh hk
        · simp only [pyLookup, if_neg hk]
          exact ih hh

theorem pyLookup_append_single_self (kvs : List (String × YVal)) (k : String) (v : YVal)
    (hnone : (kvs.any (·.1 = k)) = false) :
    pyLookup (kvs ++ [(k, v)]) k = some v := by
  induction kvs with
  | nil => simp [pyLookup]
  | cons kv rest ih =>
      have h1 : ¬(kv.1 = k) ∧ (rest.any (·.1 = k)) = false := by
        constructor
        · intro he
          rw [List.any_cons] at hnone
          simp [he] at hnone
        · rw [List.any_cons] at hnone
          exact (Bool.or_eq_false_iff.1 hnone).2
      simp only [List.cons_append, pyLookup, if_neg h1.1]
      exact ih h1.2

theorem pyLookup_setKeyVal_self (kvs : List (String × YVal)) (k : String) (v : YVal) :
    pyLookup (setKeyVal kvs k v) k = some v := by
  unfold setKeyVal
  split
  · exact pyLookup_map_setKey_self kvs k v (by assumption)
  · rename_i hany
    have hf : (kvs.any (·.1 = k)) = false := by
      cases hh : kvs.any (·.1 = k)
      · rfl
      · exact absurd hh hany
    exact pyLookup_append_single_self kvs k v hf

theorem getMapSection_setSource (d M : List (String × YVal)) (n : String)
    (hn : n ≠ "source") :
    getMapSection (setKeyVal d "source" (.map M)) n
      = getMapSection (setKeyVal d "source" (.list [.map M])) n := by
  unfold getMapSection
  rw [pyLookup_setKeyVal_ne _ _ _ n hn, pyLookup_setKeyVal_ne _ _ _ n hn]

theorem getListSection_setSource_src (d M : List (String × YVal)) :
    getListSection (setKeyVal d "source" (.map M)) "source" true
      = getListSection (setKeyVal d "source" (.list [.map M])) "source" true := by
  unfold getListSection pyGetD
  rw [pyLookup_setKeyVal_self, pyLookup_setKeyVal_self]
  simp

theorem getListSection_setSource_ne (d M : List (String × YVal)) (n : String) (b : Bool)
    (hn : n ≠ "source") :
    getListSection (setKeyVal d "source" (.map M)) n b
      = getListSection (setKeyVal d "source" (.list [.map M])) n b := by
  unfold getListSection pyGetD
  rw [pyLookup_setKeyVal_ne _ _ _ n hn, pyLookup_setKeyVal_ne _ _ _ n hn]

theorem getSection_setSource (d M : List (String × YVal)) (n : String) :
    getSection (setKeyVal d "source" (.map M)) n
      = getSection (setKeyVal d "source" (.list [.map M])) n := by
  unfold getSection
  by_cases h : n = "source"
  · subst h
    rw [if_pos rfl, if_pos rfl, getListSection_setSource_src]
  · rw [if_neg h, if_neg h]
    by_cases h2 : n = "outputs"
    · rw [if_pos h2, if_pos h2, getListSection_setSource_ne d M n false h]
    · rw [if_neg h2, if_neg h2, getMapSection_setSource d M n h]

theorem runCondaForgeSpecific_setSource (d M : List (String × YVal)) (rd : Option String)
    (ext : Ext) :
    runCondaForgeSpecific (setKeyVal d "source" (.map M)) rd ext
      = runCondaForgeSpecific (setKeyVal d "source" (.list [.map M])) rd ext := by
  unfold runCondaForgeSpecific
  rw [getMapSection_setSource d M "package" (by decide),
    getMapSection_setSource d M "extra" (by decide)]

theorem rule16_setSource (d M : List (String × YVal)) (f : String → List String)
    (ms : List String) :
    rule16 (setKeyVal d "source" (.map M)) f ms
      = rule16 (setKeyVal d "source" (.list [.map M])) f ms := by
  unfold rule16
  have h : subsectionRule (setKeyVal d "source" (.map M)) f
      = subsectionRule (setKeyVal d "source" (.list [.map M])) f := by
    funext s
    unfold subsectionRule
    rw [getSection_setSource d M s]
  rw [h]

/-! ## The claims -/

/-- Claim C2: a `source` section given as a single mapping and the same
section given as the one-element list of that mapping produce identical
`(errors, hints)` pairs.  The external license-family validator is a
collaborator receiving the whole document, so the claim is stated for
collaborator states that do not themselves distinguish the two equivalent
shapes (the real validator reads only the `about` section). -/
theorem lintify_source_shape_tolerant (d M : List (String × YVal)) (rd : Option String)
    (fs : FS) (cf : Bool) (ext : Ext)
    (hlf : ext.licenseFamilyErr (setKeyVal d "source" (.map M))
      = ext.licenseFamilyErr (setKeyVal d "source" (.list [.map M]))) :
    lintify (setKeyVal d "source" (.map M)) rd fs cf ext
      = lintify (setKeyVal d "source" (.list [.map M])) rd fs cf ext := by
  simp only [lintify]
  rw [metaKeys_setKeyVal d "source" (.map M) (.list [.map M]),
    getListSection_setSource_src d M,
    getListSection_setSource_ne d M "outputs" false (by decide),
    getMapSection_setSource d M "build" (by decide),
    getMapSection_setSource d M "requirements" (by decide),
    getMapSection_setSource d M "test" (by decide),
    getMapSection_setSource d M "about" (by decide),
    getMapSection_setSource d M "extra" (by decide),
    getMapSection_setSource d M "package" (by decide),
    hlf,
    runCondaForgeSpecific_setSource d M rd ext,
    rule16_setSource d M (effFields ext.fields)]

/-- Witness for C2 at a concrete document, with a collaborator state whose
license-family validator is constant. -/
theorem lintify_source_shape_tolerant_witness :
    lintify (setKeyVal [("package", YVal.map [("name", YVal.str "foo")])] "source"
        (.map [("url", YVal.str "http://x")]))
      Option.none fsNone false
      extTriv
      = lintify (setKeyVal [("package", YVal.map [("name", YVal.str "foo")])] "source"
          (.list [.map [("url", YVal.str "http://x")]]))
        Option.none fsNone false
        extTriv :=
  lintify_source_shape_tolerant _ _ _ _ _ _ rfl

/-- Claim C8: the pass never mutates the document.  `lintifyT` restates the
pass with the document threaded through every step that touches it (all of
them reads; the unexpected-key removal acts on the copied key list
`list(meta.keys())`): it produces the same findings and returns the document
unchanged. -/
theorem lintify_does_not_mutate (meta : List (String × YVal)) (rd : Option String)
    (fs : FS) (cf : Bool) (ext : Ext) :
    (lintifyT meta rd fs cf ext).1 = lintify meta rd fs cf ext ∧
      (lintifyT meta rd fs cf ext).2 = meta :=
  ⟨rfl, rfl⟩

/-- Claim C9: for a fixed document and fixed filesystem/collaborator state,
repeated invocations return identical, identically ordered `(errors, hints)`.
In the embedding every ambient value the source reads (document, paths, file
content, schema, remote lookups) is an explicit argument, and the pass is a
pure function of exactly these arguments. -/
theorem lintify_deterministic (m₁ m₂ : List (String × YVal)) (rd₁ rd₂ : Option String)
    (fs₁ fs₂ : FS) (cf₁ cf₂ : Bool) (e₁ e₂ : Ext)
    (hm : m₁ = m₂) (hrd : rd₁ = rd₂) (hfs : fs₁ = fs₂) (hcf : cf₁ = cf₂) (he : e₁ = e₂) :
    lintify m₁ rd₁ fs₁ cf₁ e₁ = lintify m₂ rd₂ fs₂ cf₂ e₂ := by
  subst hm hrd hfs hcf he
  rfl

/-- Witness for C9 at a concrete invocation. -/
theorem lintify_deterministic_witness :
    lintify [("package", YVal.map [("name", YVal.str "foo")])] (some "/r")
        fsNone false
        extTriv
      = lintify [("package", YVal.map [("name", YVal.str "foo")])] (some "/r")
        fsNone false
        extTriv :=
  lintify_deterministic _ _ _ _ _ _ _ _ _ _ rfl rfl rfl rfl rfl

/-- Claim C7 (code bug): `main` promises the distinguished
`IOError('Feedstock has no recipe/meta.yaml.')` when the recipe definition
file is missing, but its guard tests `os.path.exists(recipe_dir)` — the
directory.  At a recipe root that exists without a `meta.yaml`, the guard
passes and `io.open` raises a generic `FileNotFoundError` instead of the
distinguished error; when the whole root is missing, the distinguished error
is raised as documented. -/
theorem main_missing_recipe_behavior :
    mainModel ⟨fun p => p == "/r", fun _ => ""⟩
        extTriv
        id (fun _ => []) "/r" false = Except.error MainErr.openFileNotFound ∧
      mainModel fsNone
        extTriv
        id (fun _ => []) "/r" false = Except.error MainErr.missingRecipe ∧
      MainErr.openFileNotFound ≠ MainErr.missingRecipe :=
  ⟨rfl, rfl, by decide⟩

theorem filter_lintSectionOrder_eq (ms : List String) :
    List.filter isSectionOrderL (lintSectionOrder ms)
      = if ms.Pairwise (fun a b => expectedIdx a ≤ expectedIdx b) then []
        else [Lint.sectionOrder (pySortByKey expectedIdx ms)] := by
  unfold lintSectionOrder
  by_cases hp : ms.Pairwise (fun a b => expectedIdx a ≤ expectedIdx b)
  · have he := (pySortByKey_eq_self_iff expectedIdx ms).2 hp
    rw [he, if_neg (by simp), if_pos hp]
    rfl
  · have hne : ms ≠ pySortByKey expectedIdx ms :=
      fun h => hp ((pySortByKey_eq_self_iff expectedIdx ms).1 h.symm)
    rw [if_pos hne, if_neg hp]
    rfl

theorem filter_reqOrder_eq (seen : List String) :
    List.filter isRequirementsOrderL
        (if seen ≠ pySortByKey requirementsIdx seen then [Lint.requirementsOrder seen]
         else [])
      = if seen.Pairwise (fun a b => requirementsIdx a ≤ requirementsIdx b) then []
        else [Lint.requirementsOrder seen] := by
  by_cases hp : seen.Pairwise (fun a b => requirementsIdx a ≤ requirementsIdx b)
  · have he := (pySortByKey_eq_self_iff requirementsIdx seen).2 hp
    rw [he, if_neg (by simp), if_pos hp]
    rfl
  · have hne : seen ≠ pySortByKey requirementsIdx seen :=
      fun h => hp ((pySortByKey_eq_self_iff requirementsIdx seen).1 h.symm)
    rw [if_pos hne, if_neg hp]
    rfl

theorem filter_if_true (p : Lint → Bool) (c : Bool) (l : List Lint) (hc : c = true) :
    List.filter p (if c = true then l else []) = List.filter p l := by
  rw [hc]
  simp

theorem filter_self_if_singleton (p : Lint → Bool) (c : Prop) [Decidable c] (x : Lint)
    (h : p x = true) : (if c then [x] else []).filter p = if c then [x] else [] := by
  split <;> simp [h]

theorem filter_trailingRule_self (k : Nat) :
    (trailingRule k).filter isTrailingL = trailingRule k := by
  unfold trailingRule
  split
  · rfl
  · split <;> rfl

theorem filter_noarchRule_self (lines : List String) (v : String) :
    (noarchRule lines v).filter isNoarchSelectorL = noarchRule lines v := by
  unfold noarchRule
  split <;> rfl

theorem filter_testsRule_fst_eq (t : List (String × YVal)) (o : List YVal) (f : Bool)
    (hk : (t.any fun kv => TEST_KEYS.contains kv.1) = false) (hf : f = false) :
    ((testsRule t o f).1).filter isMustHaveTestsL
      = if o.any outputHasTest then [] else [Lint.mustHaveTests] := by
  unfold testsRule
  simp only [hk, hf, Bool.false_eq_true, if_false]
  split
  · exact filter_nil_flatMap _ _ _
      (fun a => filter_nil_outputTestSection _ a (fun _ _ => rfl))
  · rw [List.filter_append, filter_nil_flatMap _ _ _
      (fun a => filter_nil_outputTestSection _ a (fun _ _ => rfl))]
    rfl

theorem filter_testsRule_snd_eq (t : List (String × YVal)) (o : List YVal) (f : Bool)
    (hk : (t.any fun kv => TEST_KEYS.contains kv.1) = false) (hf : f = false) :
    ((testsRule t o f).2).filter isOutputMissingTestsL
      = if o.any outputHasTest then
          o.filterMap (fun x =>
            if outputHasTest x then Option.none else some (.outputMissingTests (outName x)))
        else [] := by
  unfold testsRule
  simp only [hk, hf, Bool.false_eq_true, if_false]
  split
  · refine List.filter_eq_self.2 (fun x hx => ?_)
    rcases List.mem_filterMap.1 hx with ⟨a, _, hfa⟩
    by_cases hc : outputHasTest a = true
    · simp [hc] at hfa
    · simp only [Bool.not_eq_true] at hc
      simp only [hc, Bool.false_eq_true, if_false] at hfa
      cases hfa
      rfl
  · rfl

/-- Claim C3: one error per unexpected top-level key (exactly the keys
outside the section vocabulary, in order); those keys are excluded from the
order check; and exactly one order error — naming the present expected keys
sorted by canonical index — is emitted iff the remaining keys are not already
in canonical relative order. -/
theorem lintify_top_level_keys (meta : List (String × YVal)) (rd : Option String)
    (fs : FS) (cf : Bool) (ext : Ext) (hwf : wfDoc meta = true) :
    ((lintify meta rd fs cf ext).1).filter isUnexpectedKeyL
        = ((metaKeys meta).filter (fun k => !(EXPECTED_SECTION_ORDER.contains k))).map
            Lint.unexpectedTopLevelKey
      ∧ ((lintify meta rd fs cf ext).1).filter isSectionOrderL
        = (if ((metaKeys meta).filter (fun k => EXPECTED_SECTION_ORDER.contains k)).Pairwise
                (fun a b => expectedIdx a ≤ expectedIdx b)
           then []
           else [Lint.sectionOrder (pySortByKey expectedIdx
                  ((metaKeys meta).filter (fun k => EXPECTED_SECTION_ORDER.contains k)))]) := by
  have hred : (((metaKeys meta).filter
        (fun k => !(EXPECTED_SECTION_ORDER.contains k))).foldl List.erase (metaKeys meta))
      = (metaKeys meta).filter (fun k => EXPECTED_SECTION_ORDER.contains k) := by
    rw [foldl_erase_filter _ _ (wfDoc_nodup meta hwf)]
    simp only [Bool.not_not]
  constructor
  · simp only [lintify, List.filter_append]
    rw [filter_nil_getListSection _ _ _ _ (fun _ _ _ _ => rfl),
      filter_nil_getMapSection _ _ _ (fun _ _ => rfl),
      filter_nil_getMapSection _ _ _ (fun _ _ => rfl),
      filter_nil_getMapSection _ _ _ (fun _ _ => rfl),
      filter_nil_getMapSection _ _ _ (fun _ _ => rfl),
      filter_nil_getMapSection _ _ _ (fun _ _ => rfl),
      filter_nil_getMapSection _ _ _ (fun _ _ => rfl),
      filter_nil_getListSection _ _ _ _ (fun _ _ _ _ => rfl),
      filter_self_map _ _ _ (fun _ => rfl),
      filter_nil_lintSectionOrder _ _ (fun _ => rfl),
      filter_nil_lintAboutContents _ _ (fun _ => rfl),
      filter_nil_if_singleton _ _ _ rfl,
      filter_nil_if_singleton _ _ _ rfl,
      filter_nil_testsRule_fst _ _ _ _ (fun _ _ => rfl) rfl,
      filter_nil_if_singleton _ _ _ rfl,
      filter_nil_if_list _ _ _ (filter_nil_if_singleton _ _ _ rfl),
      filter_nil_if_singleton _ _ _ rfl,
      filter_nil_if_singleton _ _ _ rfl,
      filter_nil_flatMap _ _ _ (fun s => filter_nil_sourceHashRule _ s rfl),
      filter_nil_if_singleton _ _ _ rfl,
      filter_nil_if_list _ _ _ (filter_nil_trailingRule _ _ (fun _ => rfl) rfl),
      filter_nil_licenseFamilyRule _ _ (fun _ => rfl),
      filter_nil_if_singleton _ _ _ rfl,
      filter_nil_pair_if_fst _ _ _
        (filter_nil_condaForge_fst _ _ _ _ (fun _ _ => rfl) rfl (fun _ => rfl) rfl),
      filter_nil_if_singleton _ _ _ rfl,
      filter_nil_rule16 _ _ _ _ (fun _ _ => rfl) (fun _ _ _ _ => rfl) (fun _ _ => rfl),
      filter_nil_if_list _ _ _ (filter_nil_noarchRule _ _ _ (fun _ => rfl)),
      filter_nil_if_list _ _ _ (filter_nil_if_singleton_rev _ _ _ rfl),
      filter_nil_if_list _ _ _ (filter_nil_if_singleton _ _ _ rfl),
      filter_nil_if_singleton _ _ _ rfl]
    simp
  · simp only [lintify, List.filter_append]
    rw [filter_nil_getListSection _ _ _ _ (fun _ _ _ _ => rfl),
      filter_nil_getMapSection _ _ _ (fun _ _ => rfl),
      filter_nil_getMapSection _ _ _ (fun _ _ => rfl),
      filter_nil_getMapSection _ _ _ (fun _ _ => rfl),
      filter_nil_getMapSection _ _ _ (fun _ _ => rfl),
      filter_nil_getMapSection _ _ _ (fun _ _ => rfl),
      filter_nil_getMapSection _ _ _ (fun _ _ => rfl),
      filter_nil_getListSection _ _ _ _ (fun _ _ _ _ => rfl),
      filter_nil_map _ _ _ (fun _ => rfl),
      filter_nil_lintAboutContents _ _ (fun _ => rfl),
      filter_nil_if_singleton _ _ _ rfl,
      filter_nil_if_singleton _ _ _ rfl,
      filter_nil_testsRule_fst _ _ _ _ (fun _ _ => rfl) rfl,
      filter_nil_if_singleton _ _ _ rfl,
      filter_nil_if_list _ _ _ (filter_nil_if_singleton _ _ _ rfl),
      filter_nil_if_singleton _ _ _ rfl,
      filter_nil_if_singleton _ _ _ rfl,
      filter_nil_flatMap _ _ _ (fun s => filter_nil_sourceHashRule _ s rfl),
      filter_nil_if_singleton _ _ _ rfl,
      filter_nil_if_list _ _ _ (filter_nil_trailingRule _ _ (fun _ => rfl) rfl),
      filter_nil_licenseFamilyRule _ _ (fun _ => rfl),
      filter_nil_if_singleton _ _ _ rfl,
      filter_nil_pair_if_fst _ _ _
        (filter_nil_condaForge_fst _ _ _ _ (fun _ _ => rfl) rfl (fun _ => rfl) rfl),
      filter_nil_if_singleton _ _ _ rfl,
      filter_nil_rule16 _ _ _ _ (fun _ _ => rfl) (fun _ _ _ _ => rfl) (fun _ _ => rfl),
      filter_nil_if_list _ _ _ (filter_nil_noarchRule _ _ _ (fun _ => rfl)),
      filter_nil_if_list _ _ _ (filter_nil_if_singleton_rev _ _ _ rfl),
      filter_nil_if_list _ _ _ (filter_nil_if_singleton _ _ _ rfl),
      filter_nil_if_singleton _ _ _ rfl,
      hred, filter_lintSectionOrder_eq]
    simp only [List.nil_append, List.append_nil]

/-- Witness for C3: keys `['build', 'package']` yield exactly one order error
naming `['package', 'build']`; keys `['package', 'build']` yield none; an
unknown key yields its own error and is excluded from the order check. -/
theorem lintify_top_level_keys_witness :
    ((lintify [("build", YVal.map [("number", YVal.int 0)]),
        ("package", YVal.map [("name", YVal.str "foo")])] Option.none
        fsNone false
        extTriv).1).filter isSectionOrderL
        = [Lint.sectionOrder ["package", "build"]]
      ∧ ((lintify [("package", YVal.map [("name", YVal.str "foo")]),
          ("build", YVal.map [("number", YVal.int 0)])] Option.none
          fsNone false
          extTriv).1).filter isSectionOrderL
        = []
      ∧ ((lintify [("weird", YVal.str "x"),
          ("package", YVal.map [("name", YVal.str "foo")])] Option.none
          fsNone false
          extTriv).1).filter isUnexpectedKeyL
        = [Lint.unexpectedTopLevelKey "weird"] := by
  refine ⟨?_, ?_, ?_⟩
  · rw [(lintify_top_level_keys _ _ _ _ _ (by decide)).2]
    decide
  · rw [(lintify_top_level_keys _ _ _ _ _ (by decide)).2]
    decide
  · rw [(lintify_top_level_keys _ _ _ _ _ (by decide)).1]
    decide

/-- Claim C6: among the requirements sub-keys that are present and belong to
{build, host, run} (in order of appearance), exactly one requirements-order
error — naming the keys as seen — is emitted iff that sequence is not already
in the canonical relative order; absent tiers never cause an error (the
finding depends only on the present keys). -/
theorem lintify_requirements_order (meta : List (String × YVal)) (rd : Option String)
    (fs : FS) (cf : Bool) (ext : Ext) (hwf : wfDoc meta = true) :
    ((lintify meta rd fs cf ext).1).filter isRequirementsOrderL
      = (if (((getMapSection meta "requirements").1.map (·.1)).filter
              (fun k => REQUIREMENTS_ORDER.contains k)).Pairwise
              (fun a b => requirementsIdx a ≤ requirementsIdx b)
         then []
         else [Lint.requirementsOrder (((getMapSection meta "requirements").1.map
                (·.1)).filter (fun k => REQUIREMENTS_ORDER.contains k))]) := by
  simp only [lintify, List.filter_append]
  rw [filter_nil_getListSection _ _ _ _ (fun _ _ _ _ => rfl),
    filter_nil_getMapSection _ _ _ (fun _ _ => rfl),
    filter_nil_getMapSection _ _ _ (fun _ _ => rfl),
    filter_nil_getMapSection _ _ _ (fun _ _ => rfl),
    filter_nil_getMapSection _ _ _ (fun _ _ => rfl),
    filter_nil_getMapSection _ _ _ (fun _ _ => rfl),
    filter_nil_getMapSection _ _ _ (fun _ _ => rfl),
    filter_nil_getListSection _ _ _ _ (fun _ _ _ _ => rfl),
    filter_nil_map _ _ _ (fun _ => rfl),
    filter_nil_lintSectionOrder _ _ (fun _ => rfl),
    filter_nil_lintAboutContents _ _ (fun _ => rfl),
    filter_nil_if_singleton _ _ _ rfl,
    filter_nil_if_singleton _ _ _ rfl,
    filter_nil_testsRule_fst _ _ _ _ (fun _ _ => rfl) rfl,
    filter_nil_if_singleton _ _ _ rfl,
    filter_nil_if_list _ _ _ (filter_nil_if_singleton _ _ _ rfl),
    filter_nil_if_singleton _ _ _ rfl,
    filter_reqOrder_eq,
    filter_nil_flatMap _ _ _ (fun s => filter_nil_sourceHashRule _ s rfl),
    filter_nil_if_singleton _ _ _ rfl,
    filter_nil_if_list _ _ _ (filter_nil_trailingRule _ _ (fun _ => rfl) rfl),
    filter_nil_licenseFamilyRule _ _ (fun _ => rfl),
    filter_nil_if_singleton _ _ _ rfl,
    filter_nil_pair_if_fst _ _ _
      (filter_nil_condaForge_fst _ _ _ _ (fun _ _ => rfl) rfl (fun _ => rfl) rfl),
    filter_nil_if_singleton _ _ _ rfl,
    filter_nil_rule16 _ _ _ _ (fun _ _ => rfl) (fun _ _ _ _ => rfl) (fun _ _ => rfl),
    filter_nil_if_list _ _ _ (filter_nil_noarchRule _ _ _ (fun _ => rfl)),
    filter_nil_if_list _ _ _ (filter_nil_if_singleton_rev _ _ _ rfl),
    filter_nil_if_list _ _ _ (filter_nil_if_singleton _ _ _ rfl),
    filter_nil_if_singleton _ _ _ rfl]
  simp only [List.nil_append, List.append_nil]

/-- Witness for C6: `run` before `build` yields exactly one error naming the
seen order; `build` then `run` (with `host` absent) yields none. -/
theorem lintify_requirements_order_witness :
    ((lintify [("requirements", YVal.map [("run", YVal.list [YVal.str "a"]),
        ("build", YVal.list [YVal.str "b"])])] Option.none
        fsNone false
        extTriv).1).filter isRequirementsOrderL
      = [Lint.requirementsOrder ["run", "build"]]
    ∧ ((lintify [("requirements", YVal.map [("build", YVal.list [YVal.str "b"]),
        ("run", YVal.list [YVal.str "a"])])] Option.none
        fsNone false
        extTriv).1).filter isRequirementsOrderL
      = [] := by
  constructor
  · rw [lintify_requirements_order _ _ _ _ _ (by decide)]
    decide
  · rw [lintify_requirements_order _ _ _ _ _ (by decide)]
    decide

/-- Claim C1: when the top-level test section carries no `imports`/`commands`
key and no known test-script file exists alongside the recipe, then: if at
least one output has such a test, no "must have some tests" error is emitted
and one hint is emitted per output lacking one (in output order, naming the
output); if no output has one — in particular when the outputs list is
empty — exactly one error "The recipe must have some tests." is emitted and
no such hints. -/
theorem lintify_tests_rule (meta : List (String × YVal)) (rd : Option String)
    (fs : FS) (cf : Bool) (ext : Ext) (hwf : wfDoc meta = true)
    (hkeys : ((getMapSection meta "test").1.any fun kv => TEST_KEYS.contains kv.1) = false)
    (hfile : aTestFileExists rd fs = false) :
    (((getListSection meta "outputs" false).1.any outputHasTest) = true →
        ((lintify meta rd fs cf ext).1).filter isMustHaveTestsL = [] ∧
        ((lintify meta rd fs cf ext).2).filter isOutputMissingTestsL
          = (getListSection meta "outputs" false).1.filterMap (fun o =>
              if outputHasTest o then Option.none
              else some (.outputMissingTests (outName o))))
      ∧ (((getListSection meta "outputs" false).1.any outputHasTest) = false →
        ((lintify meta rd fs cf ext).1).filter isMustHaveTestsL = [Lint.mustHaveTests] ∧
        ((lintify meta rd fs cf ext).2).filter isOutputMissingTestsL = [])
      ∧ renderLint Lint.mustHaveTests = "The recipe must have some tests." := by
  have hmain : ((lintify meta rd fs cf ext).1).filter isMustHaveTestsL
      = if (getListSection meta "outputs" false).1.any outputHasTest then []
        else [Lint.mustHaveTests] := by
    simp only [lintify, List.filter_append]
    rw [filter_nil_getListSection _ _ _ _ (fun _ _ _ _ => rfl),
      filter_nil_getMapSection _ _ _ (fun _ _ => rfl),
      filter_nil_getMapSection _ _ _ (fun _ _ => rfl),
      filter_nil_getMapSection _ _ _ (fun _ _ => rfl),
      filter_nil_getMapSection _ _ _ (fun _ _ => rfl),
      filter_nil_getMapSection _ _ _ (fun _ _ => rfl),
      filter_nil_getMapSection _ _ _ (fun _ _ => rfl),
      filter_nil_getListSection _ _ _ _ (fun _ _ _ _ => rfl),
      filter_nil_map _ _ _ (fun _ => rfl),
      filter_nil_lintSectionOrder _ _ (fun _ => rfl),
      filter_nil_lintAboutContents _ _ (fun _ => rfl),
      filter_nil_if_singleton _ _ _ rfl,
      filter_nil_if_singleton _ _ _ rfl,
      filter_testsRule_fst_eq _ _ _ hkeys hfile,
      filter_nil_if_singleton _ _ _ rfl,
      filter_nil_if_list _ _ _ (filter_nil_if_singleton _ _ _ rfl),
      filter_nil_if_singleton _ _ _ rfl,
      filter_nil_if_singleton _ _ _ rfl,
      filter_nil_flatMap _ _ _ (fun s => filter_nil_sourceHashRule _ s rfl),
      filter_nil_if_singleton _ _ _ rfl,
      filter_nil_if_list _ _ _ (filter_nil_trailingRule _ _ (fun _ => rfl) rfl),
      filter_nil_licenseFamilyRule _ _ (fun _ => rfl),
      filter_nil_if_singleton _ _ _ rfl,
      filter_nil_pair_if_fst _ _ _
        (filter_nil_condaForge_fst _ _ _ _ (fun _ _ => rfl) rfl (fun _ => rfl) rfl),
      filter_nil_if_singleton _ _ _ rfl,
      filter_nil_rule16 _ _ _ _ (fun _ _ => rfl) (fun _ _ _ _ => rfl) (fun _ _ => rfl),
      filter_nil_if_list _ _ _ (filter_nil_noarchRule _ _ _ (fun _ => rfl)),
      filter_nil_if_list _ _ _ (filter_nil_if_singleton_rev _ _ _ rfl),
      filter_nil_if_list _ _ _ (filter_nil_if_singleton _ _ _ rfl),
      filter_nil_if_singleton _ _ _ rfl]
    simp only [List.nil_append, List.append_nil]
  have hhint : ((lintify meta rd fs cf ext).2).filter isOutputMissingTestsL
      = if (getListSection meta "outputs" false).1.any outputHasTest then
          (getListSection meta "outputs" false).1.filterMap (fun o =>
            if outputHasTest o then Option.none
            else some (.outputMissingTests (outName o)))
        else [] := by
    simp only [lintify, List.filter_append]
    rw [filter_testsRule_snd_eq _ _ _ hkeys hfile,
      filter_nil_pair_if_snd _ _ _ (filter_nil_condaForge_snd _ _ _ _ rfl),
      filter_nil_if_list _ _ _ (filter_nil_map _ _ _ (fun _ => rfl))]
    simp only [List.nil_append, List.append_nil]
  refine ⟨fun hany => ?_, fun hany => ?_, rfl⟩
  · rw [hmain, hhint, hany]
    simp
  · rw [hmain, hhint, hany]
    simp

/-- Witness for C1: one output with a test and one without yields no blocking
error and one hint naming the second output; a single output without a test
yields exactly the blocking error and no hints. -/
theorem lintify_tests_rule_witness :
    ((lintify [("outputs", YVal.list
        [.map [("name", YVal.str "a"),
               ("test", YVal.map [("imports", YVal.list [YVal.str "x"])])],
         .map [("name", YVal.str "b")]])] Option.none
        fsNone false
        extTriv).1).filter isMustHaveTestsL = []
      ∧ ((lintify [("outputs", YVal.list
          [.map [("name", YVal.str "a"),
                 ("test", YVal.map [("imports", YVal.list [YVal.str "x"])])],
           .map [("name", YVal.str "b")]])] Option.none
          fsNone false
          extTriv).2).filter isOutputMissingTestsL
        = [Lint.outputMissingTests "b"]
      ∧ ((lintify [("outputs", YVal.list [.map [("name", YVal.str "b")]])] Option.none
          fsNone false
          extTriv).1).filter isMustHaveTestsL
        = [Lint.mustHaveTests] := by
  have h2 := lintify_tests_rule [("outputs", YVal.list
      [.map [("name", YVal.str "a"),
             ("test", YVal.map [("imports", YVal.list [YVal.str "x"])])],
       .map [("name", YVal.str "b")]])] Option.none fsNone false extTriv
    (by decide) (by decide) (by decide)
  have h1 := lintify_tests_rule [("outputs", YVal.list [.map [("name", YVal.str "b")]])]
    Option.none fsNone false extTriv (by decide) (by decide) (by decide)
  refine ⟨(h2.1 (by decide)).1, ?_, (h1.2.1 (by decide)).1⟩
  rw [(h2.1 (by decide)).2]
  decide

/-- Claim C5: with the recipe file accessible, the trailing-newline rule
emits nothing when the content ends in exactly one empty line, a "too few
lines" error when it ends in none, and one error counting `k - 1` lines too
many when it ends in `k > 1` empty lines (three empty lines read "2 too
many"). -/
theorem lintify_trailing_newline (meta : List (String × YVal)) (rd : Option String)
    (fs : FS) (cf : Bool) (ext : Ext) (hwf : wfDoc meta = true)
    (hrd : rd.isSome = true) (hex : fs.pathExists (metaFname rd) = true) :
    (endEmptyLinesCount (fs.content (metaFname rd)) = 1 →
        ((lintify meta rd fs cf ext).1).filter isTrailingL = [])
      ∧ (endEmptyLinesCount (fs.content (metaFname rd)) = 0 →
        ((lintify meta rd fs cf ext).1).filter isTrailingL = [Lint.trailingTooFew])
      ∧ (1 < endEmptyLinesCount (fs.content (metaFname rd)) →
        ((lintify meta rd fs cf ext).1).filter isTrailingL
          = [Lint.trailingTooMany (endEmptyLinesCount (fs.content (metaFname rd)) - 1)])
      ∧ renderLint (Lint.trailingTooMany 2)
          = "There are 2 too many lines.  There should be one empty line at the end of the file." := by
  have hmain : ((lintify meta rd fs cf ext).1).filter isTrailingL
      = trailingRule (endEmptyLinesCount (fs.content (metaFname rd))) := by
    simp only [lintify, List.filter_append]
    rw [filter_nil_getListSection _ _ _ _ (fun _ _ _ _ => rfl),
      filter_nil_getMapSection _ _ _ (fun _ _ => rfl),
      filter_nil_getMapSection _ _ _ (fun _ _ => rfl),
      filter_nil_getMapSection _ _ _ (fun _ _ => rfl),
      filter_nil_getMapSection _ _ _ (fun _ _ => rfl),
      filter_nil_getMapSection _ _ _ (fun _ _ => rfl),
      filter_nil_getMapSection _ _ _ (fun _ _ => rfl),
      filter_nil_getListSection _ _ _ _ (fun _ _ _ _ => rfl),
      filter_nil_map _ _ _ (fun _ => rfl),
      filter_nil_lintSectionOrder _ _ (fun _ => rfl),
      filter_nil_lintAboutContents _ _ (fun _ => rfl),
      filter_nil_if_singleton _ _ _ rfl,
      filter_nil_if_singleton _ _ _ rfl,
      filter_nil_testsRule_fst _ _ _ _ (fun _ _ => rfl) rfl,
      filter_nil_if_singleton _ _ _ rfl,
      filter_nil_if_list _ _ _ (filter_nil_if_singleton _ _ _ rfl),
      filter_nil_if_singleton _ _ _ rfl,
      filter_nil_if_singleton _ _ _ rfl,
      filter_nil_flatMap _ _ _ (fun s => filter_nil_sourceHashRule _ s rfl),
      filter_nil_if_singleton _ _ _ rfl,
      filter_nil_licenseFamilyRule _ _ (fun _ => rfl),
      filter_nil_if_singleton _ _ _ rfl,
      filter_nil_pair_if_fst _ _ _
        (filter_nil_condaForge_fst _ _ _ _ (fun _ _ => rfl) rfl (fun _ => rfl) rfl),
      filter_nil_if_singleton _ _ _ rfl,
      filter_nil_rule16 _ _ _ _ (fun _ _ => rfl) (fun _ _ _ _ => rfl) (fun _ _ => rfl),
      filter_nil_if_list _ _ _ (filter_nil_noarchRule _ _ _ (fun _ => rfl)),
      filter_nil_if_list _ _ _ (filter_nil_if_singleton_rev _ _ _ rfl),
      filter_nil_if_list _ _ _ (filter_nil_if_singleton _ _ _ rfl),
      filter_nil_if_singleton _ _ _ rfl,
      filter_if_true _ _ _ (by rw [hrd, hex]; rfl),
      filter_trailingRule_self]
    simp only [List.nil_append, List.append_nil]
  refine ⟨fun h1 => ?_, fun h0 => ?_, fun hk => ?_, rfl⟩
  · rw [hmain, h1]
    rfl
  · rw [hmain, h0]
    rfl
  · rw [hmain]
    unfold trailingRule
    rw [if_pos hk]

/-- Witness for C5: content ending in three empty lines yields the "2 too
many" error; exactly one empty line yields none; none yields "too few". -/
theorem lintify_trailing_newline_witness :
    ((lintify [] (some "/r") (fsWith "a\n\n\n") false
        extTriv).1).filter isTrailingL
      = [Lint.trailingTooMany 2]
    ∧ ((lintify [] (some "/r") (fsWith "a\n") false
        extTriv).1).filter isTrailingL = []
    ∧ ((lintify [] (some "/r") (fsWith "a") false
        extTriv).1).filter isTrailingL
      = [Lint.trailingTooFew] := by
  have h3 := lintify_trailing_newline [] (some "/r") (fsWith "a\n\n\n") false extTriv
    (by decide) (by decide) (by decide)
  have h1 := lintify_trailing_newline [] (some "/r") (fsWith "a\n") false extTriv
    (by decide) (by decide) (by decide)
  have h0 := lintify_trailing_newline [] (some "/r") (fsWith "a") false extTriv
    (by decide) (by decide) (by decide)
  exact ⟨h3.2.2.1 (by decide), h1.1 (by decide), h0.2.1 (by decide)⟩

/-- Claim C4: with `build.noarch` set and the recipe file accessible, exactly
one noarch-selector error is emitted iff some `skip:` line anywhere, or some
selector line strictly inside the `requirements:` block (which ends at the
first line whose leading indentation equals that of the `requirements:` line),
is a selector line; otherwise none. -/
theorem lintify_noarch_selectors (meta : List (String × YVal)) (rd : Option String)
    (fs : FS) (cf : Bool) (ext : Ext) (hwf : wfDoc meta = true)
    (hno : isPyNone (pyGetD (getMapSection meta "build").1 "noarch" YVal.none) = false)
    (hex : fs.pathExists (metaFname rd) = true) :
    (noarchHit (pyFileLines (fs.content (metaFname rd))) = true →
        ((lintify meta rd fs cf ext).1).filter isNoarchSelectorL
          = [Lint.noarchSelector
              (pyStr (pyGetD (getMapSection meta "build").1 "noarch" YVal.none))])
      ∧ (noarchHit (pyFileLines (fs.content (metaFname rd))) = false →
        ((lintify meta rd fs cf ext).1).filter isNoarchSelectorL = []) := by
  have hmain : ((lintify meta rd fs cf ext).1).filter isNoarchSelectorL
      = noarchRule (pyFileLines (fs.content (metaFname rd)))
          (pyStr (pyGetD (getMapSection meta "build").1 "noarch" YVal.none)) := by
    simp only [lintify, List.filter_append]
    rw [filter_nil_getListSection _ _ _ _ (fun _ _ _ _ => rfl),
      filter_nil_getMapSection _ _ _ (fun _ _ => rfl),
      filter_nil_getMapSection _ _ _ (fun _ _ => rfl),
      filter_nil_getMapSection _ _ _ (fun _ _ => rfl),
      filter_nil_getMapSection _ _ _ (fun _ _ => rfl),
      filter_nil_getMapSection _ _ _ (fun _ _ => rfl),
      filter_nil_getMapSection _ _ _ (fun _ _ => rfl),
      filter_nil_getListSection _ _ _ _ (fun _ _ _ _ => rfl),
      filter_nil_map _ _ _ (fun _ => rfl),
      filter_nil_lintSectionOrder _ _ (fun _ => rfl),
      filter_nil_lintAboutContents _ _ (fun _ => rfl),
      filter_nil_if_singleton _ _ _ rfl,
      filter_nil_if_singleton _ _ _ rfl,
      filter_nil_testsRule_fst _ _ _ _ (fun _ _ => rfl) rfl,
      filter_nil_if_singleton _ _ _ rfl,
      filter_nil_if_list _ _ _ (filter_nil_if_singleton _ _ _ rfl),
      filter_nil_if_singleton _ _ _ rfl,
      filter_nil_if_singleton _ _ _ rfl,
      filter_nil_flatMap _ _ _ (fun s => filter_nil_sourceHashRule _ s rfl),
      filter_nil_if_singleton _ _ _ rfl,
      filter_nil_if_list _ _ _ (filter_nil_trailingRule _ _ (fun _ => rfl) rfl),
      filter_nil_licenseFamilyRule _ _ (fun _ => rfl),
      filter_nil_if_singleton _ _ _ rfl,
      filter_nil_pair_if_fst _ _ _
        (filter_nil_condaForge_fst _ _ _ _ (fun _ _ => rfl) rfl (fun _ => rfl) rfl),
      filter_nil_if_singleton _ _ _ rfl,
      filter_nil_rule16 _ _ _ _ (fun _ _ => rfl) (fun _ _ _ _ => rfl) (fun _ _ => rfl),
      filter_nil_if_list _ _ _ (filter_nil_if_singleton_rev _ _ _ rfl),
      filter_nil_if_list _ _ _ (filter_nil_if_singleton _ _ _ rfl),
      filter_nil_if_singleton _ _ _ rfl,
      filter_if_true _ _ _ (by rw [hno, hex]; rfl),
      filter_noarchRule_self]
    simp only [List.nil_append, List.append_nil]
  have hscan : noarchScan (pyFileLines (fs.content (metaFname rd))) false ""
      = noarchHit (pyFileLines (fs.content (metaFname rd))) :=
    noarchScan_eq_hit _ false ""
  constructor
  · intro hhit
    rw [hmain]
    unfold noarchRule
    rw [hscan, hhit, if_pos rfl]
  · intro hmiss
    rw [hmain]
    unfold noarchRule
    rw [hscan, hmiss]
    simp

/-- Witness for C4: the spec example — `noarch` with `"  - bar  # [win]"`
inside the `requirements:` block yields exactly one error; the same recipe
with no selector in the block or on a `skip:` line yields none. -/
theorem lintify_noarch_selectors_witness :
    ((lintify [("build", YVal.map [("noarch", YVal.str "generic")])] (some "/r")
        (fsWith "requirements:\n  - bar  # [win]\nbuild:\n  noarch: generic\n")
        false
        extTriv).1).filter isNoarchSelectorL
      = [Lint.noarchSelector "generic"]
    ∧ ((lintify [("build", YVal.map [("noarch", YVal.str "generic")])] (some "/r")
        (fsWith "requirements:\n  - bar\nbuild:\n  noarch: generic\n")
        false
        extTriv).1).filter isNoarchSelectorL
      = [] := by
  have hy := lintify_noarch_selectors [("build", YVal.map [("noarch", YVal.str "generic")])]
    (some "/r") (fsWith "requirements:\n  - bar  # [win]\nbuild:\n  noarch: generic\n")
    false extTriv (by decide) (by decide) (by decide)
  have hn := lintify_noarch_selectors [("build", YVal.map [("noarch", YVal.str "generic")])]
    (some "/r") (fsWith "requirements:\n  - bar\nbuild:\n  noarch: generic\n")
    false extTriv (by decide) (by decide) (by decide)
  constructor
  · rw [hy.1 (by decide)]
    decide
  · exact hn.2 (by decide)

/-- Claim C10: the line numbers in the selector-tidiness and
templating-tidiness findings are zero-based: an untidy selector (resp. Jinja
assignment) line that is physically the `N`-th line of the file (counting
from 1) is reported as line `N - 1`. -/
theorem lintify_line_numbers_zero_based (meta : List (String × YVal)) (rd : Option String)
    (fs : FS) (cf : Bool) (ext : Ext) (hwf : wfDoc meta = true)
    (hrd : rd.isSome = true) (hex : fs.pathExists (metaFname rd) = true) :
    (∀ N : Nat, 1 ≤ N → N ≤ (pyFileLines (fs.content (metaFname rd))).length →
      isSelectorLine ((pyFileLines (fs.content (metaFname rd))).getD (N - 1) "") = true →
      goodSelectorLine ((pyFileLines (fs.content (metaFname rd))).getD (N - 1) "") = false →
      (N - 1) ∈ badSelectorNums (pyFileLines (fs.content (metaFname rd))) ∧
        Lint.badSelectors (badSelectorNums (pyFileLines (fs.content (metaFname rd))))
          ∈ (lintify meta rd fs cf ext).1)
    ∧ (∀ N : Nat, 1 ≤ N → N ≤ (pyFileLines (fs.content (metaFname rd))).length →
      isJinjaLine ((pyFileLines (fs.content (metaFname rd))).getD (N - 1) "") = true →
      goodJinjaLine ((pyFileLines (fs.content (metaFname rd))).getD (N - 1) "") = false →
      (N - 1) ∈ badJinjaNums (pyFileLines (fs.content (metaFname rd))) ∧
        Lint.badJinja (badJinjaNums (pyFileLines (fs.content (metaFname rd))))
          ∈ (lintify meta rd fs cf ext).1) := by
  constructor
  · intro N h1 h2 hs hg
    have hk : N - 1 < (pyFileLines (fs.content (metaFname rd))).length := by omega
    have hmem := mem_badSelectorNums _ _ hk hs hg
    refine ⟨hmem, ?_⟩
    have hne : ¬(badSelectorNums (pyFileLines (fs.content (metaFname rd)))).isEmpty = true := by
      intro hh
      rw [List.isEmpty_iff] at hh
      rw [hh] at hmem
      simp at hmem
    have hfil : ((lintify meta rd fs cf ext).1).filter isBadSelectorsL
        = [Lint.badSelectors (badSelectorNums (pyFileLines (fs.content (metaFname rd))))] := by
      simp only [lintify, List.filter_append]
      rw [filter_nil_getListSection _ _ _ _ (fun _ _ _ _ => rfl),
        filter_nil_getMapSection _ _ _ (fun _ _ => rfl),
        filter_nil_getMapSection _ _ _ (fun _ _ => rfl),
        filter_nil_getMapSection _ _ _ (fun _ _ => rfl),
        filter_nil_getMapSection _ _ _ (fun _ _ => rfl),
        filter_nil_getMapSection _ _ _ (fun _ _ => rfl),
        filter_nil_getMapSection _ _ _ (fun _ _ => rfl),
        filter_nil_getListSection _ _ _ _ (fun _ _ _ _ => rfl),
        filter_nil_map _ _ _ (fun _ => rfl),
        filter_nil_lintSectionOrder _ _ (fun _ => rfl),
        filter_nil_lintAboutContents _ _ (fun _ => rfl),
        filter_nil_if_singleton _ _ _ rfl,
        filter_nil_if_singleton _ _ _ rfl,
        filter_nil_testsRule_fst _ _ _ _ (fun _ _ => rfl) rfl,
        filter_nil_if_singleton _ _ _ rfl,
        filter_if_true _ _ _ (by rw [hrd, hex]; rfl),
        filter_self_if_singleton _ _ _ rfl,
        filter_nil_if_singleton _ _ _ rfl,
        filter_nil_if_singleton _ _ _ rfl,
        filter_nil_flatMap _ _ _ (fun s => filter_nil_sourceHashRule _ s rfl),
        filter_nil_if_singleton _ _ _ rfl,
        filter_nil_if_list _ _ _ (filter_nil_trailingRule _ _ (fun _ => rfl) rfl),
        filter_nil_licenseFamilyRule _ _ (fun _ => rfl),
        filter_nil_if_singleton _ _ _ rfl,
        filter_nil_pair_if_fst _ _ _
          (filter_nil_condaForge_fst _ _ _ _ (fun _ _ => rfl) rfl (fun _ => rfl) rfl),
        filter_nil_if_singleton _ _ _ rfl,
        filter_nil_rule16 _ _ _ _ (fun _ _ => rfl) (fun _ _ _ _ => rfl) (fun _ _ => rfl),
        filter_nil_if_list _ _ _ (filter_nil_noarchRule _ _ _ (fun _ => rfl)),
        filter_nil_if_list _ _ _ (filter_nil_if_singleton_rev _ _ _ rfl),
        filter_nil_if_list _ _ _ (filter_nil_if_singleton _ _ _ rfl),
        filter_nil_if_singleton _ _ _ rfl]
      simp only [List.nil_append, List.append_nil]
      have hpos : (!(badSelectorNums (pyFileLines (fs.content (metaFname rd)))).isEmpty) = true := by
        cases h : (badSelectorNums (pyFileLines (fs.content (metaFname rd)))).isEmpty
        · rfl
        · exact absurd h hne
      rw [if_pos hpos]
    have : Lint.badSelectors (badSelectorNums (pyFileLines (fs.content (metaFname rd))))
        ∈ ((lintify meta rd fs cf ext).1).filter isBadSelectorsL := by
      rw [hfil]
      exact List.mem_singleton.2 rfl
    exact List.mem_of_mem_filter this
  · intro N h1 h2 hs hg
    have hk : N - 1 < (pyFileLines (fs.content (metaFname rd))).length := by omega
    have hmem := mem_badJinjaNums _ _ hk hs hg
    refine ⟨hmem, ?_⟩
    have hne : ¬(badJinjaNums (pyFileLines (fs.content (metaFname rd)))).isEmpty = true := by
      intro hh
      rw [List.isEmpty_iff] at hh
      rw [hh] at hmem
      simp at hmem
    have hfil : ((lintify meta rd fs cf ext).1).filter isBadJinjaL
        = [Lint.badJinja (badJinjaNums (pyFileLines (fs.content (metaFname rd))))] := by
      simp only [lintify, List.filter_append]
      rw [filter_nil_getListSection _ _ _ _ (fun _ _ _ _ => rfl),
        filter_nil_getMapSection _ _ _ (fun _ _ => rfl),
        filter_nil_getMapSection _ _ _ (fun _ _ => rfl),
        filter_nil_getMapSection _ _ _ (fun _ _ => rfl),
        filter_nil_getMapSection _ _ _ (fun _ _ => rfl),
        filter_nil_getMapSection _ _ _ (fun _ _ => rfl),
        filter_nil_getMapSection _ _ _ (fun _ _ => rfl),
        filter_nil_getListSection _ _ _ _ (fun _ _ _ _ => rfl),
        filter_nil_map _ _ _ (fun _ => rfl),
        filter_nil_lintSectionOrder _ _ (fun _ => rfl),
        filter_nil_lintAboutContents _ _ (fun _ => rfl),
        filter_nil_if_singleton _ _ _ rfl,
        filter_nil_if_singleton _ _ _ rfl,
        filter_nil_testsRule_fst _ _ _ _ (fun _ _ => rfl) rfl,
        filter_nil_if_singleton _ _ _ rfl,
        filter_nil_if_list _ _ _ (filter_nil_if_singleton _ _ _ rfl),
        filter_nil_if_singleton _ _ _ rfl,
        filter_nil_if_singleton _ _ _ rfl,
        filter_nil_flatMap _ _ _ (fun s => filter_nil_sourceHashRule _ s rfl),
        filter_nil_if_singleton _ _ _ rfl,
        filter_nil_if_list _ _ _ (filter_nil_trailingRule _ _ (fun _ => rfl) rfl),
        filter_nil_licenseFamilyRule _ _ (fun _ => rfl),
        filter_nil_if_singleton _ _ _ rfl,
        filter_nil_pair_if_fst _ _ _
          (filter_nil_condaForge_fst _ _ _ _ (fun _ _ => rfl) rfl (fun _ => rfl) rfl),
        filter_nil_if_singleton _ _ _ rfl,
        filter_nil_rule16 _ _ _ _ (fun _ _ => rfl) (fun _ _ _ _ => rfl) (fun _ _ => rfl),
        filter_nil_if_list _ _ _ (filter_nil_noarchRule _ _ _ (fun _ => rfl)),
        filter_nil_if_list _ _ _ (filter_nil_if_singleton_rev _ _ _ rfl),
        filter_if_true _ _ _ (by rw [hrd, hex]; rfl),
        filter_self_if_singleton _ _ _ rfl,
        filter_nil_if_singleton _ _ _ rfl]
      simp only [List.nil_append, List.append_nil]
      have hpos : (!(badJinjaNums (pyFileLines (fs.content (metaFname rd)))).isEmpty) = true := by
        cases h : (badJinjaNums (pyFileLines (fs.content (metaFname rd)))).isEmpty
        · rfl
        · exact absurd h hne
      rw [if_pos hpos]
    have : Lint.badJinja (badJinjaNums (pyFileLines (fs.content (metaFname rd))))
        ∈ ((lintify meta rd fs cf ext).1).filter isBadJinjaL := by
      rw [hfil]
      exact List.mem_singleton.2 rfl
    exact List.mem_of_mem_filter this

/-- Witness for C10: in a file whose physical line 2 is an untidy selector
line and whose physical line 1 is an untidy Jinja assignment, the findings
report lines 1 and 0 respectively. -/
theorem lintify_line_numbers_zero_based_witness :
    ((1 : Nat) ∈ badSelectorNums (pyFileLines "\x7b%set x = 1%\x7d\nfoo # [win]\n") ∧
      Lint.badSelectors (badSelectorNums (pyFileLines "\x7b%set x = 1%\x7d\nfoo # [win]\n"))
        ∈ (lintify [] (some "/r")
            (fsWith "\x7b%set x = 1%\x7d\nfoo # [win]\n") false
            extTriv).1)
    ∧ ((0 : Nat) ∈ badJinjaNums (pyFileLines "\x7b%set x = 1%\x7d\nfoo # [win]\n") ∧
      Lint.badJinja (badJinjaNums (pyFileLines "\x7b%set x = 1%\x7d\nfoo # [win]\n"))
        ∈ (lintify [] (some "/r")
            (fsWith "\x7b%set x = 1%\x7d\nfoo # [win]\n") false
            extTriv).1) := by
  have h := lintify_line_numbers_zero_based [] (some "/r")
    (fsWith "\x7b%set x = 1%\x7d\nfoo # [win]\n") false extTriv
    (by decide) (by decide) (by decide)
  exact ⟨h.1 2 (by decide) (by decide) (by decide) (by decide),
    h.2 1 (by decide) (by decide) (by decide) (by decide)⟩

end CondaSmithy
